import Mathlib

/-!
Shallow embedding of the producer-consumer simulation engine of the
repository (src/src/hooks/useSimulation.ts and the type/factory module
exported from src/unnamed/part_008, i.e. src/types/simulation.ts).

Modelling conventions:
* String-typed discriminants of the source (`'empty' | 'full' | 'mutex'`,
  process states, operations) become closed inductive types.
* JavaScript `number` fields that hold counts are modelled as `Int`
  (semaphore values, config counts) or `Nat` (step numbers, counters that
  are only ever 0 or incremented); `animationSpeed` and the derived
  statistics are modelled as `Rat` since they are fractional.
* `Date.now()` is modelled as an explicit `now : Nat` argument threaded to
  the reducer; each dispatched command carries the clock value observed
  during its execution.
* The source copies arrays with `[...]` but mutates the found *element*
  objects in place; observationally each helper returns the list with the
  first matching element replaced, which `fillFirst` captures.  Where a
  fall-through path of the source returns the original `state` binding
  after such an in-place mutation, the element mutations are visible in
  the returned object, so the embedding returns the updated record there.
-/

namespace PCSim

/-- Semaphore name discriminant `'empty' | 'full' | 'mutex'`. -/
inductive SemName where
  | empty
  | full
  | mutex
  deriving DecidableEq, Repr

/-- Process kind discriminant `'producer' | 'consumer'`. -/
inductive ProcessType where
  | producer
  | consumer
  deriving DecidableEq, Repr

/-- Process state `'ready' | 'running' | 'waiting' | 'blocked'`. -/
inductive ProcessState where
  | ready
  | running
  | waiting
  | blocked
  deriving DecidableEq, Repr

/-- Current operation `'producing' | 'consuming' | 'waiting_semaphore'`. -/
inductive ProcessOp where
  | producing
  | consuming
  | waitingSemaphore
  deriving DecidableEq, Repr

/-- Configuration record (types/simulation.ts, `SimulationConfig`). -/
structure SimulationConfig where
  bufferSize : Int
  producerCount : Int
  consumerCount : Int
  animationSpeed : Rat
  deriving DecidableEq, Repr

/-- Semaphore record (types/simulation.ts, `Semaphore`). -/
structure Semaphore where
  name : SemName
  value : Int
  waitingQueue : List String
  deriving DecidableEq, Repr

/-- Process record (types/simulation.ts, `Process`). -/
structure Process where
  id : String
  type : ProcessType
  state : ProcessState
  currentOperation : Option ProcessOp
  waitingOn : Option SemName
  itemsProcessed : Nat
  totalWaitTime : Nat
  deriving DecidableEq, Repr

/-- Buffer item (types/simulation.ts, the `item` field of `BufferSlot`). -/
structure Item where
  id : String
  producedBy : String
  timestamp : Nat
  deriving DecidableEq, Repr

/-- Buffer slot record (types/simulation.ts, `BufferSlot`). -/
structure BufferSlot where
  id : Nat
  occupied : Bool
  item : Option Item
  deriving DecidableEq, Repr

/-- Statistics record (types/simulation.ts, `SimulationState.statistics`). -/
structure Statistics where
  totalItemsProduced : Nat
  totalItemsConsumed : Nat
  bufferUtilization : Rat
  averageWaitTime : Rat
  deriving DecidableEq, Repr

/-- History snapshot (types/simulation.ts, `SimulationSnapshot`). -/
structure SimulationSnapshot where
  stepNumber : Nat
  action : String
  processId : String
  semaphores : List Semaphore
  processes : List Process
  buffer : List BufferSlot
  startTime : Option Nat
  statistics : Statistics
  deriving DecidableEq, Repr

/-- Whole simulation state (types/simulation.ts, `SimulationState`). -/
structure SimulationState where
  config : SimulationConfig
  semaphores : List Semaphore
  processes : List Process
  buffer : List BufferSlot
  currentStep : Nat
  isPlaying : Bool
  animationSpeed : Rat
  history : List SimulationSnapshot
  startTime : Option Nat
  statistics : Statistics
  deriving DecidableEq, Repr

/-- Commands accepted by the reducer (types/simulation.ts, `SimulationAction`). -/
inductive SimulationAction where
  | setConfig (config : SimulationConfig)
  | startSimulation
  | pauseSimulation
  | stepForward
  | stepBackward
  | resetSimulation
  | setSpeed (speed : Rat)
  | jumpToStep (target : Int)
  deriving DecidableEq, Repr

/-- Replace the first element satisfying `p` by its image under `f`.
This is the observational effect of the source pattern "find the element
in a shallow array copy and mutate it in place". -/
def fillFirst (p : α → Bool) (f : α → α) : List α → List α
  | [] => []
  | x :: xs => if p x then f x :: xs else x :: fillFirst p f xs

/-- Function `isValidConfig` (types/simulation.ts lines 82-97).  The `typeof`
checks are vacuous here because the record is total. -/
def isValidConfig (config : SimulationConfig) : Bool :=
  1 ≤ config.bufferSize ∧ config.bufferSize ≤ 10 ∧
  1 ≤ config.producerCount ∧ config.producerCount ≤ 5 ∧
  1 ≤ config.consumerCount ∧ config.consumerCount ≤ 5 ∧
  (1 : Rat)/2 ≤ config.animationSpeed ∧ config.animationSpeed ≤ 3

/-- Constant `DEFAULT_CONFIG` (types/simulation.ts lines 100-105). -/
def DEFAULT_CONFIG : SimulationConfig :=
  { bufferSize := 5, producerCount := 2, consumerCount := 2, animationSpeed := 1 }

/-- The `for` loops of `createInitialState` that build `P1..Pn` / `C1..Cm`. -/
def mkProcesses (tag : String) (ty : ProcessType) (count : Nat) : List Process :=
  (List.range count).map fun i =>
    { id := tag ++ toString (i + 1), type := ty, state := .ready,
      currentOperation := none, waitingOn := none,
      itemsProcessed := 0, totalWaitTime := 0 }

/-- Factory `createInitialState` (types/simulation.ts lines 108-182). -/
def createInitialState (config : SimulationConfig) : SimulationState :=
  { config := config,
    semaphores :=
      [ { name := .empty, value := config.bufferSize, waitingQueue := [] },
        { name := .full, value := 0, waitingQueue := [] },
        { name := .mutex, value := 1, waitingQueue := [] } ],
    processes :=
      mkProcesses "P" .producer config.producerCount.toNat ++
      mkProcesses "C" .consumer config.consumerCount.toNat,
    buffer := (List.range config.bufferSize.toNat).map fun i =>
      { id := i, occupied := false, item := none },
    currentStep := 0,
    isPlaying := false,
    animationSpeed := config.animationSpeed,
    history := [],
    startTime := none,
    statistics := { totalItemsProduced := 0, totalItemsConsumed := 0,
                    bufferUtilization := 0, averageWaitTime := 0 } }

/-- Function `createStateSnapshot` (types/simulation.ts lines 185-201); the JSON
round-trip deep copy is value copying here. -/
def createStateSnapshot (state : SimulationState) (stepNumber : Nat)
    (action : String) (processId : String) : SimulationSnapshot :=
  { stepNumber := stepNumber, action := action, processId := processId,
    semaphores := state.semaphores, processes := state.processes,
    buffer := state.buffer, startTime := state.startTime,
    statistics := state.statistics }

/-- Function `calculateBufferUtilization` (types/simulation.ts lines 216-219). -/
def calculateBufferUtilization (buffer : List BufferSlot) : Rat :=
  let occupiedSlots := (buffer.filter fun slot => slot.occupied).length
  if 0 < buffer.length then ((occupiedSlots : Rat) / (buffer.length : Rat)) * 100 else 0

/-- Function `getSemaphoreByName` (types/simulation.ts lines 221-223). -/
def getSemaphoreByName (semaphores : List Semaphore) (name : SemName) : Option Semaphore :=
  semaphores.find? fun s => decide (s.name = name)

/-- Function `getProcessById` (types/simulation.ts lines 225-227). -/
def getProcessById (processes : List Process) (id : String) : Option Process :=
  processes.find? fun p => decide (p.id = id)

/-- Result record of `waitSemaphore`. -/
structure WaitResult where
  semaphores : List Semaphore
  processes : List Process
  success : Bool
  deriving DecidableEq, Repr

/-- Result record of `signalSemaphore`. -/
structure SignalResult where
  semaphores : List Semaphore
  processes : List Process
  deriving DecidableEq, Repr

/-- Function `waitSemaphore` (useSimulation.ts lines 20-51). -/
def waitSemaphore (semaphores : List Semaphore) (processes : List Process)
    (processId : String) (semaphoreName : SemName) : WaitResult :=
  match getSemaphoreByName semaphores semaphoreName, getProcessById processes processId with
  | some semaphore, some _ =>
    if 0 < semaphore.value then
      { semaphores := fillFirst (fun s => decide (s.name = semaphoreName))
          (fun s => { s with value := s.value - 1 }) semaphores,
        processes := fillFirst (fun p => decide (p.id = processId))
          (fun p => { p with state := .running, waitingOn := none }) processes,
        success := true }
    else
      { semaphores := fillFirst (fun s => decide (s.name = semaphoreName))
          (fun s => { s with waitingQueue :=
              if s.waitingQueue.contains processId then s.waitingQueue
              else s.waitingQueue ++ [processId] }) semaphores,
        processes := fillFirst (fun p => decide (p.id = processId))
          (fun p => { p with state := .blocked, waitingOn := some semaphoreName }) processes,
        success := false }
  | _, _ => { semaphores := semaphores, processes := processes, success := false }

/-- Function `signalSemaphore` (useSimulation.ts lines 54-84).  The `value + 1 - 1`
in the hand-off branch mirrors the increment followed by the immediate
re-decrement for the dequeued waiter. -/
def signalSemaphore (semaphores : List Semaphore) (processes : List Process)
    (semaphoreName : SemName) : SignalResult :=
  match getSemaphoreByName semaphores semaphoreName with
  | none => { semaphores := semaphores, processes := processes }
  | some semaphore =>
    match semaphore.waitingQueue with
    | [] =>
      { semaphores := fillFirst (fun s => decide (s.name = semaphoreName))
          (fun s => { s with value := s.value + 1 }) semaphores,
        processes := processes }
    | waitingProcessId :: rest =>
      match getProcessById processes waitingProcessId with
      | some _ =>
        { semaphores := fillFirst (fun s => decide (s.name = semaphoreName))
            (fun s => { s with value := s.value + 1 - 1, waitingQueue := rest }) semaphores,
          processes := fillFirst (fun p => decide (p.id = waitingProcessId))
            (fun p => { p with state := .ready, waitingOn := none }) processes }
      | none =>
        { semaphores := fillFirst (fun s => decide (s.name = semaphoreName))
            (fun s => { s with value := s.value + 1, waitingQueue := rest }) semaphores,
          processes := processes }

/-- Result record of the micro-step evaluators. -/
structure StepOutcome where
  newState : SimulationState
  action : String
  success : Bool
  deriving DecidableEq, Repr

/-- Function `executeProducerStep` (useSimulation.ts lines 87-195). -/
def executeProducerStep (state : SimulationState) (processId : String)
    (now : Nat) : StepOutcome :=
  match getProcessById state.processes processId with
  | none => { newState := state, action := "", success := false }
  | some process =>
    if process.type = .producer then
      if process.currentOperation = none then
        let w := waitSemaphore state.semaphores state.processes processId .empty
        if w.success then
          { newState := { state with
              semaphores := w.semaphores,
              processes := fillFirst (fun p => decide (p.id = processId))
                (fun p => { p with currentOperation := some .producing }) w.processes },
            action := processId ++ " acquired empty semaphore", success := true }
        else
          { newState := { state with semaphores := w.semaphores, processes := w.processes },
            action := processId ++ " waiting for empty slot", success := false }
      else if process.currentOperation = some .producing ∧ process.waitingOn = none then
        let w := waitSemaphore state.semaphores state.processes processId .mutex
        if w.success then
          match state.buffer.find? (fun slot => !slot.occupied) with
          | some _ =>
            let newBuffer := fillFirst (fun slot => !slot.occupied)
              (fun slot => { slot with
                occupied := true,
                item := some { id := "item-" ++ toString state.currentStep ++ "-" ++ processId,
                               producedBy := processId, timestamp := now } }) state.buffer
            let processes2 := fillFirst (fun p => decide (p.id = processId))
              (fun p => { p with
                itemsProcessed := p.itemsProcessed + 1,
                currentOperation := none, state := .ready }) w.processes
            let r1 := signalSemaphore w.semaphores processes2 .mutex
            let r2 := signalSemaphore r1.semaphores r1.processes .full
            { newState := { state with
                semaphores := r2.semaphores,
                processes := r2.processes, buffer := newBuffer,
                statistics := { state.statistics with
                  totalItemsProduced := state.statistics.totalItemsProduced + 1,
                  bufferUtilization := calculateBufferUtilization newBuffer } },
              action := processId ++ " produced an item", success := true }
          | none =>
            -- the source returns the `state` binding whose semaphore and
            -- process records were already mutated in place by the wait
            { newState := { state with semaphores := w.semaphores, processes := w.processes },
              action := "", success := false }
        else
          { newState := { state with semaphores := w.semaphores, processes := w.processes },
            action := processId ++ " waiting for mutex", success := false }
      else { newState := state, action := "", success := false }
    else { newState := state, action := "", success := false }

/-- Function `executeConsumerStep` (useSimulation.ts lines 198-302). -/
def executeConsumerStep (state : SimulationState) (processId : String)
    (_now : Nat) : StepOutcome :=
  match getProcessById state.processes processId with
  | none => { newState := state, action := "", success := false }
  | some process =>
    if process.type = .consumer then
      if process.currentOperation = none then
        let w := waitSemaphore state.semaphores state.processes processId .full
        if w.success then
          { newState := { state with
              semaphores := w.semaphores,
              processes := fillFirst (fun p => decide (p.id = processId))
                (fun p => { p with currentOperation := some .consuming }) w.processes },
            action := processId ++ " acquired full semaphore", success := true }
        else
          { newState := { state with semaphores := w.semaphores, processes := w.processes },
            action := processId ++ " waiting for full slot", success := false }
      else if process.currentOperation = some .consuming ∧ process.waitingOn = none then
        let w := waitSemaphore state.semaphores state.processes processId .mutex
        if w.success then
          match state.buffer.find? (fun slot => slot.occupied) with
          | some _ =>
            let newBuffer := fillFirst (fun slot => slot.occupied)
              (fun slot => { slot with occupied := false, item := none }) state.buffer
            let processes2 := fillFirst (fun p => decide (p.id = processId))
              (fun p => { p with
                itemsProcessed := p.itemsProcessed + 1,
                currentOperation := none, state := .ready }) w.processes
            let r1 := signalSemaphore w.semaphores processes2 .mutex
            let r2 := signalSemaphore r1.semaphores r1.processes .empty
            { newState := { state with
                semaphores := r2.semaphores,
                processes := r2.processes, buffer := newBuffer,
                statistics := { state.statistics with
                  totalItemsConsumed := state.statistics.totalItemsConsumed + 1,
                  bufferUtilization := calculateBufferUtilization newBuffer } },
              action := processId ++ " consumed an item", success := true }
          | none =>
            { newState := { state with semaphores := w.semaphores, processes := w.processes },
              action := "", success := false }
        else
          { newState := { state with semaphores := w.semaphores, processes := w.processes },
            action := processId ++ " waiting for mutex", success := false }
      else { newState := state, action := "", success := false }
    else { newState := state, action := "", success := false }

/-- JavaScript `state.startTime || Date.now()` on a `number | null`:
`null` and `0` are falsy. -/
def jsStartTimeOr (t : Option Nat) (now : Nat) : Option Nat :=
  match t with
  | some v => if v = 0 then some now else some v
  | none => some now

/-- Reducer `simulationReducer` (useSimulation.ts lines 305-517). -/
def simulationReducer (state : SimulationState) (action : SimulationAction)
    (now : Nat) : SimulationState :=
  match action with
  | .setConfig config =>
    if isValidConfig config then
      { createInitialState config with animationSpeed := config.animationSpeed }
    else state
  | .startSimulation =>
    if state.isPlaying then state
    else { state with isPlaying := true, startTime := jsStartTimeOr state.startTime now }
  | .pauseSimulation =>
    if state.isPlaying then { state with isPlaying := false } else state
  | .stepForward =>
    let readyProcesses := state.processes.filter fun p =>
      decide (p.state = .ready) || decide (p.state = .running)
    match readyProcesses with
    | [] => state
      -- the loop over blocked processes in the source only `break`s and
      -- therefore has no observable effect
    | processToExecute :: _ =>
      let stepResult :=
        if processToExecute.type = .producer then
          executeProducerStep state processToExecute.id now
        else
          executeConsumerStep state processToExecute.id now
      if stepResult.success ∨ stepResult.action ≠ "" then
        let snapshot := createStateSnapshot stepResult.newState
          (state.currentStep + 1) stepResult.action processToExecute.id
        let totalWaitTime : Nat := stepResult.newState.processes.foldl
          (fun sum p => sum + p.totalWaitTime) 0
        let averageWaitTime : Rat :=
          if 0 < stepResult.newState.processes.length then
            (totalWaitTime : Rat) / (stepResult.newState.processes.length : Rat)
          else 0
        { stepResult.newState with
            currentStep := state.currentStep + 1,
            history := state.history ++ [snapshot],
            statistics := { stepResult.newState.statistics with
              averageWaitTime := averageWaitTime } }
      else
        -- the source returns the input `state` binding, whose element
        -- records alias any in-place mutations done by the evaluator
        stepResult.newState
  | .stepBackward =>
    if state.history.length = 0 ∨ state.currentStep = 0 then state
    else
      match (if 2 ≤ state.currentStep then state.history.get? (state.currentStep - 2) else none) with
      | none =>
        { createInitialState state.config with
            animationSpeed := state.animationSpeed, isPlaying := state.isPlaying }
      | some previousSnapshot =>
        { state with
            semaphores := previousSnapshot.semaphores,
            processes := previousSnapshot.processes,
            buffer := previousSnapshot.buffer,
            statistics := previousSnapshot.statistics,
            currentStep := previousSnapshot.stepNumber,
            history := state.history.take previousSnapshot.stepNumber }
  | .jumpToStep targetStep =>
    if targetStep < 0 ∨ (state.history.length : Int) < targetStep then state
    else if targetStep = 0 then
      { createInitialState state.config with
          animationSpeed := state.animationSpeed, isPlaying := state.isPlaying }
    else
      match state.history.get? (targetStep.toNat - 1) with
      | none => state
      | some targetSnapshot =>
        { state with
            semaphores := targetSnapshot.semaphores,
            processes := targetSnapshot.processes,
            buffer := targetSnapshot.buffer,
            statistics := targetSnapshot.statistics,
            currentStep := targetSnapshot.stepNumber,
            history := state.history.take targetStep.toNat }
  | .setSpeed speed =>
    if speed < (1 : Rat)/2 ∨ 3 < speed then state
    else { state with animationSpeed := speed }
  | .resetSimulation =>
    { createInitialState state.config with animationSpeed := state.animationSpeed }

/-- Dispatch a command sequence; each command carries the `Date.now()`
value observed while it executes. -/
def runCommands (state : SimulationState) (commands : List (SimulationAction × Nat)) :
    SimulationState :=
  commands.foldl (fun s c => simulationReducer s c.1 c.2) state

/-- States reachable from a freshly constructed initial state by some
command sequence. -/
def ReachableState (s : SimulationState) : Prop :=
  ∃ config commands, s = runCommands (createInitialState config) commands

/-- Every semaphore named `mutex` has a value in `[0, 1]`. -/
def mutexBounded (semaphores : List Semaphore) : Prop :=
  ∀ sem ∈ semaphores, sem.name = SemName.mutex → 0 ≤ sem.value ∧ sem.value ≤ 1

/-- A slot is occupied exactly when it carries an item. -/
def slotsConsistent (buffer : List BufferSlot) : Prop :=
  ∀ slot ∈ buffer, slot.occupied = slot.item.isSome

/-- No process has accumulated wait time. -/
def zeroWait (processes : List Process) : Prop :=
  ∀ p ∈ processes, p.totalWaitTime = 0

/-- Inductive invariant over the engine state and its stored snapshots,
combining the facts needed for the mutex bound, the slot/item consistency
and the wait-time observations. -/
def EngineInv (s : SimulationState) : Prop :=
  mutexBounded s.semaphores ∧ slotsConsistent s.buffer ∧ zeroWait s.processes ∧
  s.statistics.averageWaitTime = 0 ∧
  ∀ snap ∈ s.history,
    mutexBounded snap.semaphores ∧ slotsConsistent snap.buffer ∧
    zeroWait snap.processes ∧ snap.statistics.averageWaitTime = 0

/-- Bookkeeping invariant used for the reversibility round trip: the step
counter tracks the history length, snapshot `i` carries step number `i+1`,
and the fields that the backward rebuild copies are still those of the
initial state. -/
def RoundTripInv (cfg : SimulationConfig) (s : SimulationState) : Prop :=
  s.config = cfg ∧ s.animationSpeed = cfg.animationSpeed ∧ s.isPlaying = false ∧
  s.currentStep = s.history.length ∧
  ∀ i snap, s.history.get? i = some snap → snap.stepNumber = i + 1

/-- Buffer item with the clock-derived `timestamp` field erased. -/
structure StrippedItem where
  id : String
  producedBy : String
  deriving DecidableEq, Repr

/-- Buffer slot with its item stripped of the timestamp. -/
structure StrippedSlot where
  id : Nat
  occupied : Bool
  item : Option StrippedItem
  deriving DecidableEq, Repr

/-- History snapshot with clock-derived data (`startTime`, item
timestamps) erased. -/
structure StrippedSnapshot where
  stepNumber : Nat
  action : String
  processId : String
  semaphores : List Semaphore
  processes : List Process
  buffer : List StrippedSlot
  statistics : Statistics
  deriving DecidableEq, Repr

/-- Simulation state with clock-derived data erased. -/
structure StrippedState where
  config : SimulationConfig
  semaphores : List Semaphore
  processes : List Process
  buffer : List StrippedSlot
  currentStep : Nat
  isPlaying : Bool
  animationSpeed : Rat
  history : List StrippedSnapshot
  statistics : Statistics
  deriving DecidableEq, Repr

def stripItem (i : Item) : StrippedItem :=
  { id := i.id, producedBy := i.producedBy }

def stripSlot (b : BufferSlot) : StrippedSlot :=
  { id := b.id, occupied := b.occupied, item := b.item.map stripItem }

def stripSnapshot (h : SimulationSnapshot) : StrippedSnapshot :=
  { stepNumber := h.stepNumber, action := h.action, processId := h.processId,
    semaphores := h.semaphores, processes := h.processes,
    buffer := h.buffer.map stripSlot, statistics := h.statistics }

/-- Erase every clock-derived field of a state (item timestamps and
`startTime`, in the live components and in every stored snapshot). -/
def stripState (s : SimulationState) : StrippedState :=
  { config := s.config, semaphores := s.semaphores, processes := s.processes,
    buffer := s.buffer.map stripSlot, currentStep := s.currentStep,
    isPlaying := s.isPlaying, animationSpeed := s.animationSpeed,
    history := s.history.map stripSnapshot, statistics := s.statistics }

/-- Concrete scenario configuration `{1,1,1,1.0}` used in the spec. -/
def cfg111 : SimulationConfig :=
  { bufferSize := 1, producerCount := 1, consumerCount := 1, animationSpeed := 1 }

/-- Concrete scenario configuration `{1,2,1,1.0}` used in the spec. -/
def cfg121 : SimulationConfig :=
  { bufferSize := 1, producerCount := 2, consumerCount := 1, animationSpeed := 1 }

/-- Concrete scenario configuration `{5,2,2,1.0}` used in the spec. -/
def cfg5221 : SimulationConfig :=
  { bufferSize := 5, producerCount := 2, consumerCount := 2, animationSpeed := 1 }

/-- A list of `k` StepForward commands with the given clock readings. -/
def forwardCommands (times : List Nat) : List (SimulationAction × Nat) :=
  times.map fun t => (SimulationAction.stepForward, t)

/-- A list of `k` StepBackward commands with the given clock readings. -/
def backwardCommands (times : List Nat) : List (SimulationAction × Nat) :=
  times.map fun t => (SimulationAction.stepBackward, t)

theorem fillFirst_nil (p : α → Bool) (f : α → α) : fillFirst p f [] = [] := rfl

theorem fillFirst_cons (p : α → Bool) (f : α → α) (x : α) (xs : List α) :
    fillFirst p f (x :: xs) =
      if p x then f x :: xs else x :: fillFirst p f xs := rfl

/-- Membership in `fillFirst p f l`: either an untouched element of `l`, or
the image under `f` of the first element satisfying `p`. -/
theorem mem_fillFirst {p : α → Bool} {f : α → α} {l : List α} {y : α}
    (h : y ∈ fillFirst p f l) :
    y ∈ l ∨ ∃ x, l.find? p = some x ∧ y = f x := by
  induction l with
  | nil => simp [fillFirst] at h
  | cons a as ih =>
    rw [fillFirst_cons] at h
    by_cases hp : p a
    · rw [if_pos hp] at h
      rcases List.mem_cons.mp h with h1 | h1
      · exact Or.inr ⟨a, by simp [List.find?_cons, hp], h1⟩
      · exact Or.inl (List.mem_cons_of_mem _ h1)
    · rw [if_neg hp] at h
      rcases List.mem_cons.mp h with h1 | h1
      · exact Or.inl (h1 ▸ List.mem_cons_self _ _)
      · rcases ih h1 with h2 | ⟨x, hx, hy⟩
        · exact Or.inl (List.mem_cons_of_mem _ h2)
        · refine Or.inr ⟨x, ?_, hy⟩
          simp [List.find?_cons, hp, hx]

/-- Splitting view of a successful `find?`. -/
theorem find?_split {p : α → Bool} {l : List α} {a : α}
    (h : l.find? p = some a) :
    ∃ l₁ l₂, l = l₁ ++ a :: l₂ ∧ (∀ x ∈ l₁, p x = false) ∧ p a = true := by
  induction l with
  | nil => simp [List.find?] at h
  | cons b bs ih =>
    by_cases hp : p b
    · rw [List.find?_cons_of_pos _ hp] at h
      obtain rfl : b = a := by injection h
      exact ⟨[], bs, rfl, by simp, hp⟩
    · rw [List.find?_cons_of_neg _ hp] at h
      obtain ⟨l₁, l₂, heq, hneg, hpa⟩ := ih h
      exact ⟨b :: l₁, l₂, by simp [heq], by simpa [hp] using hneg, hpa⟩

theorem find?_append_first {p : α → Bool} {l₁ l₂ : List α} {a : α}
    (h₁ : ∀ x ∈ l₁, p x = false) (h₂ : p a = true) :
    (l₁ ++ a :: l₂).find? p = some a := by
  induction l₁ with
  | nil => simp [List.find?_cons, h₂]
  | cons b bs ih =>
    have hb : p b = false := h₁ b (List.mem_cons_self _ _)
    simp only [List.cons_append, List.find?_cons, hb]
    exact ih fun x hx => h₁ x (List.mem_cons_of_mem _ hx)

theorem fillFirst_append_first {p : α → Bool} {f : α → α} {l₁ l₂ : List α} {a : α}
    (h₁ : ∀ x ∈ l₁, p x = false) (h₂ : p a = true) :
    fillFirst p f (l₁ ++ a :: l₂) = l₁ ++ f a :: l₂ := by
  induction l₁ with
  | nil => simp [fillFirst_cons, h₂]
  | cons b bs ih =>
    have hb : p b = false := h₁ b (List.mem_cons_self _ _)
    rw [List.cons_append, fillFirst_cons, if_neg (by simp [hb]),
      ih fun x hx => h₁ x (List.mem_cons_of_mem _ hx), List.cons_append]

/-- Lemma: `fillFirst` commutes with `map` when the predicate and the update
factor through the mapping. -/
theorem map_fillFirst {p : α → Bool} {q : β → Bool} {f : α → α} {g : α → β}
    {f2 : β → β}
    (hq : ∀ x, q (g x) = p x) (hf : ∀ x, g (f x) = f2 (g x)) :
    ∀ l : List α, (fillFirst p f l).map g = fillFirst q f2 (l.map g) := by
  intro l
  induction l with
  | nil => rfl
  | cons a as ih =>
    by_cases hp : p a
    · rw [fillFirst_cons, if_pos (by simp [hp]), List.map_cons, List.map_cons,
        fillFirst_cons, if_pos (by simp [hq, hp]), hf]
    · rw [fillFirst_cons, if_neg (by simp [hp]), List.map_cons, List.map_cons,
        fillFirst_cons, if_neg (by simp [hq, hp]), ih]

/-- The producer evaluator never touches the bookkeeping fields of the
state, and never changes `averageWaitTime`. -/
theorem executeProducerStep_frame (s : SimulationState) (pid : String) (n : Nat) :
    (executeProducerStep s pid n).newState.config = s.config ∧
    (executeProducerStep s pid n).newState.currentStep = s.currentStep ∧
    (executeProducerStep s pid n).newState.history = s.history ∧
    (executeProducerStep s pid n).newState.isPlaying = s.isPlaying ∧
    (executeProducerStep s pid n).newState.animationSpeed = s.animationSpeed ∧
    (executeProducerStep s pid n).newState.startTime = s.startTime ∧
    (executeProducerStep s pid n).newState.statistics.averageWaitTime =
      s.statistics.averageWaitTime := by
  simp only [executeProducerStep]
  repeat' split
  all_goals exact ⟨rfl, rfl, rfl, rfl, rfl, rfl, rfl⟩

/-- The consumer evaluator never touches the bookkeeping fields of the
state, and never changes `averageWaitTime`. -/
theorem executeConsumerStep_frame (s : SimulationState) (pid : String) (n : Nat) :
    (executeConsumerStep s pid n).newState.config = s.config ∧
    (executeConsumerStep s pid n).newState.currentStep = s.currentStep ∧
    (executeConsumerStep s pid n).newState.history = s.history ∧
    (executeConsumerStep s pid n).newState.isPlaying = s.isPlaying ∧
    (executeConsumerStep s pid n).newState.animationSpeed = s.animationSpeed ∧
    (executeConsumerStep s pid n).newState.startTime = s.startTime ∧
    (executeConsumerStep s pid n).newState.statistics.averageWaitTime =
      s.statistics.averageWaitTime := by
  simp only [executeConsumerStep]
  repeat' split
  all_goals exact ⟨rfl, rfl, rfl, rfl, rfl, rfl, rfl⟩

/-- Command `StepForward` never changes configuration, animation speed, playing
flag or start time. -/
theorem stepForward_fields (s : SimulationState) (n : Nat) :
    (simulationReducer s SimulationAction.stepForward n).config = s.config ∧
    (simulationReducer s SimulationAction.stepForward n).animationSpeed = s.animationSpeed ∧
    (simulationReducer s SimulationAction.stepForward n).isPlaying = s.isPlaying ∧
    (simulationReducer s SimulationAction.stepForward n).startTime = s.startTime := by
  simp only [simulationReducer]
  split
  · exact ⟨rfl, rfl, rfl, rfl⟩
  · split
    · rename_i p rest heq hty
      obtain ⟨h1, h2, h3, h4, h5, h6, h7⟩ := executeProducerStep_frame s p.id n
      split
      · exact ⟨h1, h5, h4, h6⟩
      · exact ⟨h1, h5, h4, h6⟩
    · rename_i p rest heq hty
      obtain ⟨h1, h2, h3, h4, h5, h6, h7⟩ := executeConsumerStep_frame s p.id n
      split
      · exact ⟨h1, h5, h4, h6⟩
      · exact ⟨h1, h5, h4, h6⟩

/-- Command `StepForward` either appends exactly one snapshot stamped with the
incremented step counter, or leaves history and step counter unchanged. -/
theorem stepForward_cases (s : SimulationState) (n : Nat) :
    (∃ snap, snap.stepNumber = s.currentStep + 1 ∧
      (simulationReducer s SimulationAction.stepForward n).history = s.history ++ [snap] ∧
      (simulationReducer s SimulationAction.stepForward n).currentStep = s.currentStep + 1) ∨
    ((simulationReducer s SimulationAction.stepForward n).history = s.history ∧
      (simulationReducer s SimulationAction.stepForward n).currentStep = s.currentStep) := by
  simp only [simulationReducer]
  split
  · exact Or.inr ⟨rfl, rfl⟩
  · split
    · rename_i p rest heq hty
      obtain ⟨h1, h2, h3, h4, h5, h6, h7⟩ := executeProducerStep_frame s p.id n
      split
      · exact Or.inl ⟨_, rfl, rfl, rfl⟩
      · exact Or.inr ⟨h3, h2⟩
    · rename_i p rest heq hty
      obtain ⟨h1, h2, h3, h4, h5, h6, h7⟩ := executeConsumerStep_frame s p.id n
      split
      · exact Or.inl ⟨_, rfl, rfl, rfl⟩
      · exact Or.inr ⟨h3, h2⟩

theorem append_ne_empty_of_length (a b : String) (hb : b.length ≠ 0) :
    a ++ b ≠ "" := by
  intro h
  have hlen := congrArg String.length h
  rw [String.length_append] at hlen
  have : String.length "" = 0 := rfl
  omega

/-- On a state whose processes all have no current operation (as after
construction), the producer evaluator is either an exact no-op or emits a
non-empty action string. -/
theorem executeProducerStep_ops_none {s : SimulationState}
    (h : ∀ p ∈ s.processes, p.currentOperation = none) (pid : String) (n : Nat) :
    executeProducerStep s pid n = ⟨s, "", false⟩ ∨
    (executeProducerStep s pid n).action ≠ "" := by
  simp only [executeProducerStep]
  split
  · exact Or.inl rfl
  · rename_i proc hfind
    have hop : proc.currentOperation = none :=
      h proc (List.mem_of_find?_eq_some hfind)
    repeat' split
    all_goals first
      | exact Or.inl rfl
      | exact Or.inr (append_ne_empty_of_length _ _ (by decide))

/-- Consumer analogue of `executeProducerStep_ops_none`. -/
theorem executeConsumerStep_ops_none {s : SimulationState}
    (h : ∀ p ∈ s.processes, p.currentOperation = none) (pid : String) (n : Nat) :
    executeConsumerStep s pid n = ⟨s, "", false⟩ ∨
    (executeConsumerStep s pid n).action ≠ "" := by
  simp only [executeConsumerStep]
  split
  · exact Or.inl rfl
  · rename_i proc hfind
    have hop : proc.currentOperation = none :=
      h proc (List.mem_of_find?_eq_some hfind)
    repeat' split
    all_goals first
      | exact Or.inl rfl
      | exact Or.inr (append_ne_empty_of_length _ _ (by decide))

/-- On a state whose processes all have no current operation, a
`StepForward` is either an exact no-op or a completed step. -/
theorem stepForward_ops_none {s : SimulationState}
    (h : ∀ p ∈ s.processes, p.currentOperation = none) (n : Nat) :
    simulationReducer s SimulationAction.stepForward n = s ∨
    (simulationReducer s SimulationAction.stepForward n).currentStep =
      s.currentStep + 1 := by
  simp only [simulationReducer]
  split
  · exact Or.inl rfl
  · rename_i p rest heq
    split
    · rcases executeProducerStep_ops_none h p.id n with hE | hA
      · rw [hE]
        simp only []
        rw [if_neg (by simp)]
        exact Or.inl rfl
      · rw [if_pos (Or.inr hA)]
        exact Or.inr rfl
    · rcases executeConsumerStep_ops_none h p.id n with hE | hA
      · rw [hE]
        simp only []
        rw [if_neg (by simp)]
        exact Or.inl rfl
      · rw [if_pos (Or.inr hA)]
        exact Or.inr rfl

theorem createInitialState_ops_none (cfg : SimulationConfig) :
    ∀ p ∈ (createInitialState cfg).processes, p.currentOperation = none := by
  intro p hp
  simp only [createInitialState, mkProcesses, List.mem_append, List.mem_map] at hp
  rcases hp with ⟨i, _, rfl⟩ | ⟨i, _, rfl⟩ <;> rfl

theorem roundTripInv_createInitialState (cfg : SimulationConfig) :
    RoundTripInv cfg (createInitialState cfg) := by
  refine ⟨rfl, rfl, rfl, rfl, ?_⟩
  intro i snap hget
  simp [createInitialState] at hget

theorem roundTripInv_stepForward {cfg : SimulationConfig} {s : SimulationState}
    (h : RoundTripInv cfg s) (n : Nat) :
    RoundTripInv cfg (simulationReducer s SimulationAction.stepForward n) := by
  obtain ⟨h1, h2, h3, h4, h5⟩ := h
  obtain ⟨f1, f2, f3, f4⟩ := stepForward_fields s n
  rcases stepForward_cases s n with ⟨snap, hsn, hh, hc⟩ | ⟨hh, hc⟩
  · refine ⟨by rw [f1, h1], by rw [f2, h2], by rw [f3, h3], ?_, ?_⟩
    · rw [hc, hh, List.length_append, h4]
      rfl
    · intro i snap' hget
      rw [hh] at hget
      by_cases hi : i < s.history.length
      · rw [List.get?_append hi] at hget
        exact h5 i snap' hget
      · rw [List.get?_append_right (by omega)] at hget
        have hlen : i - s.history.length = 0 := by
          rcases List.get?_eq_some.mp hget with ⟨hb, _⟩
          simp at hb
          omega
        rw [hlen] at hget
        obtain rfl : snap = snap' := by
          simpa using hget
        have : i = s.history.length := by
          rcases List.get?_eq_some.mp (hlen ▸ hget) with ⟨hb, _⟩
          omega
        rw [this, ← h4, hsn]
  · exact ⟨by rw [f1, h1], by rw [f2, h2], by rw [f3, h3], by rw [hc, hh, h4],
      fun i snap' hget => h5 i snap' (hh ▸ hget)⟩

theorem stepBackward_noop {s : SimulationState}
    (h : s.history.length = 0 ∨ s.currentStep = 0) (n : Nat) :
    simulationReducer s SimulationAction.stepBackward n = s := by
  simp only [simulationReducer]
  rw [if_pos h]

theorem stepBackward_rebuild {cfg : SimulationConfig} {s : SimulationState}
    (hinv : RoundTripInv cfg s) (hc : s.currentStep = 1) (n : Nat) :
    simulationReducer s SimulationAction.stepBackward n = createInitialState cfg := by
  obtain ⟨h1, h2, h3, h4, h5⟩ := hinv
  simp only [simulationReducer]
  rw [if_neg (by omega)]
  rw [hc]
  simp only [show ¬(2 ≤ 1) by omega, if_false]
  rw [h1, h2, h3]
  rfl

theorem stepBackward_restore {cfg : SimulationConfig} {s : SimulationState}
    (hinv : RoundTripInv cfg s) (hc : 2 ≤ s.currentStep) (n : Nat) :
    RoundTripInv cfg (simulationReducer s SimulationAction.stepBackward n) ∧
    (simulationReducer s SimulationAction.stepBackward n).currentStep =
      s.currentStep - 1 := by
  obtain ⟨h1, h2, h3, h4, h5⟩ := hinv
  have hlt : s.currentStep - 2 < s.history.length := by omega
  have hget : s.history.get? (s.currentStep - 2) =
      some (s.history.get ⟨s.currentStep - 2, hlt⟩) := List.get?_eq_get hlt
  set snap := s.history.get ⟨s.currentStep - 2, hlt⟩ with hsnap
  have hsn : snap.stepNumber = s.currentStep - 1 := by
    have := h5 _ _ hget
    omega
  simp only [simulationReducer]
  rw [if_neg (by omega), if_pos hc, hget]
  have htklen : (s.history.take snap.stepNumber).length = s.currentStep - 1 := by
    rw [List.length_take, hsn]
    omega
  refine ⟨⟨h1, h2, h3, ?_, ?_⟩, ?_⟩
  · simpa [htklen] using hsn
  · intro i snap' hget'
    have hi : i < (s.history.take snap.stepNumber).length :=
      (List.get?_eq_some.mp hget').1
    rw [List.get?_take (by rw [htklen] at hi; omega)] at hget'
    exact h5 i snap' hget'
  · exact hsn

theorem runCommands_nil (s : SimulationState) : runCommands s [] = s := rfl

theorem runCommands_cons (s : SimulationState) (c : SimulationAction × Nat)
    (l : List (SimulationAction × Nat)) :
    runCommands s (c :: l) = runCommands (simulationReducer s c.1 c.2) l := rfl

theorem runCommands_append (s : SimulationState)
    (l1 l2 : List (SimulationAction × Nat)) :
    runCommands s (l1 ++ l2) = runCommands (runCommands s l1) l2 := by
  simp [runCommands, List.foldl_append]

/-- Iterated `StepBackward` from a state satisfying the round-trip
invariant lands exactly on the freshly constructed initial state, provided
enough backward commands are issued. -/
theorem runCommands_backward_eq_init {cfg : SimulationConfig} :
    ∀ (l : List (SimulationAction × Nat)) (s : SimulationState),
    (∀ c ∈ l, c.1 = SimulationAction.stepBackward) →
    RoundTripInv cfg s →
    (s = createInitialState cfg ∨ (1 ≤ s.currentStep ∧ s.currentStep ≤ l.length)) →
    runCommands s l = createInitialState cfg := by
  intro l
  induction l with
  | nil =>
    intro s _ _ harm
    rcases harm with rfl | ⟨h1, h2⟩
    · rfl
    · simp at h2
      omega
  | cons c l' ih =>
    intro s hall hinv harm
    have hc1 : c.1 = SimulationAction.stepBackward := hall c (List.mem_cons_self _ _)
    have hall' : ∀ x ∈ l', x.1 = SimulationAction.stepBackward :=
      fun x hx => hall x (List.mem_cons_of_mem _ hx)
    rw [runCommands_cons, hc1]
    rcases harm with rfl | ⟨hge, hle⟩
    · rw [stepBackward_noop (Or.inr rfl) c.2]
      exact ih _ hall' (roundTripInv_createInitialState cfg) (Or.inl rfl)
    · by_cases h2 : 2 ≤ s.currentStep
      · obtain ⟨hinv', hstep⟩ := stepBackward_restore hinv h2 c.2
        refine ih _ hall' hinv' (Or.inr ⟨by omega, ?_⟩)
        have : l'.length + 1 = (c :: l').length := by simp
        omega
      · have h1 : s.currentStep = 1 := by omega
        rw [stepBackward_rebuild hinv h1]
        exact ih _ hall' (roundTripInv_createInitialState cfg) (Or.inl rfl)

theorem runCommands_forward_inv {cfg : SimulationConfig} :
    ∀ (l : List (SimulationAction × Nat)) (s : SimulationState),
    (∀ c ∈ l, c.1 = SimulationAction.stepForward) →
    RoundTripInv cfg s → RoundTripInv cfg (runCommands s l) := by
  intro l
  induction l with
  | nil => exact fun s _ h => h
  | cons c l' ih =>
    intro s hall hinv
    rw [runCommands_cons, hall c (List.mem_cons_self _ _)]
    exact ih _ (fun x hx => hall x (List.mem_cons_of_mem _ hx))
      (roundTripInv_stepForward hinv c.2)

theorem runCommands_forward_le :
    ∀ (l : List (SimulationAction × Nat)) (s : SimulationState),
    (∀ c ∈ l, c.1 = SimulationAction.stepForward) →
    (runCommands s l).currentStep ≤ s.currentStep + l.length := by
  intro l
  induction l with
  | nil => simp [runCommands_nil]
  | cons c l' ih =>
    intro s hall
    rw [runCommands_cons, hall c (List.mem_cons_self _ _)]
    have h1 := ih (simulationReducer s SimulationAction.stepForward c.2)
      (fun x hx => hall x (List.mem_cons_of_mem _ hx))
    have h2 : (simulationReducer s SimulationAction.stepForward c.2).currentStep ≤
        s.currentStep + 1 := by
      rcases stepForward_cases s c.2 with ⟨_, _, _, hc⟩ | ⟨_, hc⟩ <;> omega
    simp only [List.length_cons]
    omega

theorem runCommands_forward_init_or {cfg : SimulationConfig} :
    ∀ (l : List (SimulationAction × Nat)) (s : SimulationState),
    (∀ c ∈ l, c.1 = SimulationAction.stepForward) →
    (s = createInitialState cfg ∨ 1 ≤ s.currentStep) →
    (runCommands s l = createInitialState cfg ∨ 1 ≤ (runCommands s l).currentStep) := by
  intro l
  induction l with
  | nil => exact fun s _ h => h
  | cons c l' ih =>
    intro s hall harm
    rw [runCommands_cons, hall c (List.mem_cons_self _ _)]
    have hall' : ∀ x ∈ l', x.1 = SimulationAction.stepForward :=
      fun x hx => hall x (List.mem_cons_of_mem _ hx)
    rcases harm with rfl | hge
    · rcases stepForward_ops_none (createInitialState_ops_none cfg) c.2 with hE | hA
      · rw [hE]
        exact ih _ hall' (Or.inl rfl)
      · refine ih _ hall' (Or.inr ?_)
        rw [hA]
        omega
    · refine ih _ hall' (Or.inr ?_)
      rcases stepForward_cases s c.2 with ⟨_, _, _, hc⟩ | ⟨_, hc⟩ <;> omega

/-- Pointwise property preservation through `fillFirst`. -/
theorem pred_fillFirst {l : List α} {p : α → Bool} {f : α → α} {Q : α → Prop}
    (h : ∀ x ∈ l, Q x) (hf : ∀ x, l.find? p = some x → Q (f x)) :
    ∀ y ∈ fillFirst p f l, Q y := by
  intro y hy
  rcases mem_fillFirst hy with hmem | ⟨x, hfind, rfl⟩
  · exact h y hmem
  · exact hf x hfind

/-- Operation `wait` keeps every mutex-named semaphore inside `[0, 1]`: a successful
acquisition decrements a strictly positive value, a block only touches the
queue. -/
theorem waitSemaphore_mutexBounded {sems : List Semaphore} {procs : List Process}
    (hm : mutexBounded sems) (pid : String) (name : SemName) :
    mutexBounded (waitSemaphore sems procs pid name).semaphores := by
  simp only [waitSemaphore]
  split
  · rename_i sem proc hfind hproc
    split
    · rename_i hpos
      refine pred_fillFirst hm ?_
      intro x hx hxname
      obtain rfl : sem = x := by
        rw [getSemaphoreByName] at hfind
        rw [hfind] at hx
        exact Option.some.inj hx
      have hb := hm sem (List.mem_of_find?_eq_some hfind) (by simpa using hxname)
      constructor <;> simp <;> omega
    · refine pred_fillFirst hm ?_
      intro x hx hxname
      have hb := hm x (List.mem_of_find?_eq_some hx) (by simpa using hxname)
      simpa using hb
  · exact hm

/-- After a successful `wait` on the mutex, the first mutex-named
semaphore has a non-positive value. -/
theorem waitSemaphore_success_mutex {sems : List Semaphore} {procs : List Process}
    {pid : String}
    (hsucc : (waitSemaphore sems procs pid SemName.mutex).success = true)
    (hm : mutexBounded sems) :
    ∀ x, getSemaphoreByName
        (waitSemaphore sems procs pid SemName.mutex).semaphores SemName.mutex =
        some x → x.value ≤ 0 := by
  simp only [waitSemaphore] at hsucc
  split at hsucc
  · rename_i sem proc hfind hproc
    split at hsucc
    · rename_i hpos
      simp only [waitSemaphore, hfind, hproc, hpos, if_true]
      intro x hx
      rw [getSemaphoreByName] at hfind
      obtain ⟨l₁, l₂, rfl, hneg, hp⟩ := find?_split hfind
      rw [fillFirst_append_first hneg hp] at hx
      rw [getSemaphoreByName] at hx
      rw [find?_append_first hneg (by simpa using hp)] at hx
      obtain rfl : { sem with value := sem.value - 1 } = x := Option.some.inj hx
      have hname : sem.name = SemName.mutex := by simpa using hp
      have hb := hm sem (by simp) hname
      simp
      omega
    · simp at hsucc
  · simp at hsucc

/-- Operation `signal` on a semaphore that is not the mutex keeps every mutex-named
semaphore inside `[0, 1]`. -/
theorem signalSemaphore_mutexBounded_other {sems : List Semaphore}
    {procs : List Process} {name : SemName}
    (hm : mutexBounded sems) (hn : name ≠ SemName.mutex) :
    mutexBounded (signalSemaphore sems procs name).semaphores := by
  simp only [signalSemaphore]
  split
  · exact hm
  · rename_i sem hfind
    split
    · refine pred_fillFirst hm ?_
      intro x hx hxname
      have hp := List.find?_some hx
      simp at hp hxname
      rw [hxname] at hp
      exact absurd hp.symm hn
    · split
      · refine pred_fillFirst hm ?_
        intro x hx hxname
        have hp := List.find?_some hx
        simp at hp hxname
        rw [hxname] at hp
        exact absurd hp.symm hn
      · refine pred_fillFirst hm ?_
        intro x hx hxname
        have hp := List.find?_some hx
        simp at hp hxname
        rw [hxname] at hp
        exact absurd hp.symm hn

/-- Operation `signal` on the mutex keeps every mutex-named semaphore inside
`[0, 1]` as long as the first mutex-named semaphore is at most 0 (which is
the situation right after a successful `wait`). -/
theorem signalSemaphore_mutexBounded_le_zero {sems : List Semaphore}
    {procs : List Process}
    (hm : mutexBounded sems)
    (hfd : ∀ x, getSemaphoreByName sems SemName.mutex = some x → x.value ≤ 0) :
    mutexBounded (signalSemaphore sems procs SemName.mutex).semaphores := by
  simp only [signalSemaphore]
  split
  · exact hm
  · rename_i sem hfind
    have hv : sem.value ≤ 0 := hfd sem hfind
    have hlow : 0 ≤ sem.value := by
      refine (hm sem (List.mem_of_find?_eq_some hfind) ?_).1
      have hp := List.find?_some hfind
      simpa using hp
    split
    · refine pred_fillFirst hm ?_
      intro x hx _
      obtain rfl : sem = x := by
        rw [getSemaphoreByName] at hfind
        rw [hfind] at hx
        exact Option.some.inj hx
      constructor <;> simp <;> omega
    · split
      · refine pred_fillFirst hm ?_
        intro x hx _
        obtain rfl : sem = x := by
          rw [getSemaphoreByName] at hfind
          rw [hfind] at hx
          exact Option.some.inj hx
        constructor <;> simp <;> omega
      · refine pred_fillFirst hm ?_
        intro x hx _
        obtain rfl : sem = x := by
          rw [getSemaphoreByName] at hfind
          rw [hfind] at hx
          exact Option.some.inj hx
        constructor <;> simp <;> omega

/-- Operation `wait` never writes `totalWaitTime`. -/
theorem waitSemaphore_zeroWait {sems : List Semaphore} {procs : List Process}
    (hz : zeroWait procs) (pid : String) (name : SemName) :
    zeroWait (waitSemaphore sems procs pid name).processes := by
  simp only [waitSemaphore]
  split
  · split
    · refine pred_fillFirst hz ?_
      intro x hx
      simpa using hz x (List.mem_of_find?_eq_some hx)
    · refine pred_fillFirst hz ?_
      intro x hx
      simpa using hz x (List.mem_of_find?_eq_some hx)
  · exact hz

/-- Operation `signal` never writes `totalWaitTime`. -/
theorem signalSemaphore_zeroWait {sems : List Semaphore} {procs : List Process}
    (hz : zeroWait procs) (name : SemName) :
    zeroWait (signalSemaphore sems procs name).processes := by
  simp only [signalSemaphore]
  split
  · exact hz
  · split
    · exact hz
    · split
      · refine pred_fillFirst hz ?_
        intro x hx
        simpa using hz x (List.mem_of_find?_eq_some hx)
      · exact hz

theorem zeroWait_fillFirst_preserve {procs : List Process} {p : Process → Bool}
    {f : Process → Process}
    (hz : zeroWait procs) (hf : ∀ x, (f x).totalWaitTime = x.totalWaitTime) :
    zeroWait (fillFirst p f procs) :=
  pred_fillFirst hz fun x hx => by
    rw [hf]
    exact hz x (List.mem_of_find?_eq_some hx)

theorem slotsConsistent_fillFirst {buf : List BufferSlot} {p : BufferSlot → Bool}
    {f : BufferSlot → BufferSlot}
    (hs : slotsConsistent buf) (hf : ∀ x, (f x).occupied = (f x).item.isSome) :
    slotsConsistent (fillFirst p f buf) :=
  pred_fillFirst hs fun x _ => hf x

/-- One producer micro-step preserves the mutex bound, the slot/item
consistency and the zero-wait-time property. -/
theorem executeProducerStep_inv {s : SimulationState}
    (hm : mutexBounded s.semaphores) (hs : slotsConsistent s.buffer)
    (hz : zeroWait s.processes) (pid : String) (n : Nat) :
    mutexBounded (executeProducerStep s pid n).newState.semaphores ∧
    slotsConsistent (executeProducerStep s pid n).newState.buffer ∧
    zeroWait (executeProducerStep s pid n).newState.processes := by
  simp only [executeProducerStep]
  repeat' split
  all_goals
    refine ⟨?_, ?_, ?_⟩ <;>
    first
      | exact hm
      | exact hs
      | exact hz
      | exact waitSemaphore_mutexBounded hm pid _
      | exact waitSemaphore_zeroWait hz pid _
      | (apply zeroWait_fillFirst_preserve (waitSemaphore_zeroWait hz pid _)
         intro x
         rfl)
      | (apply slotsConsistent_fillFirst hs
         intro x
         rfl)
      | exact signalSemaphore_mutexBounded_other
          (signalSemaphore_mutexBounded_le_zero
            (waitSemaphore_mutexBounded hm pid _)
            (waitSemaphore_success_mutex (by assumption) hm))
          (by decide)
      | (apply signalSemaphore_zeroWait
         apply signalSemaphore_zeroWait
         apply zeroWait_fillFirst_preserve (waitSemaphore_zeroWait hz pid _)
         intro x
         rfl)

/-- One consumer micro-step preserves the mutex bound, the slot/item
consistency and the zero-wait-time property. -/
theorem executeConsumerStep_inv {s : SimulationState}
    (hm : mutexBounded s.semaphores) (hs : slotsConsistent s.buffer)
    (hz : zeroWait s.processes) (pid : String) (n : Nat) :
    mutexBounded (executeConsumerStep s pid n).newState.semaphores ∧
    slotsConsistent (executeConsumerStep s pid n).newState.buffer ∧
    zeroWait (executeConsumerStep s pid n).newState.processes := by
  simp only [executeConsumerStep]
  repeat' split
  all_goals
    refine ⟨?_, ?_, ?_⟩ <;>
    first
      | exact hm
      | exact hs
      | exact hz
      | exact waitSemaphore_mutexBounded hm pid _
      | exact waitSemaphore_zeroWait hz pid _
      | (apply zeroWait_fillFirst_preserve (waitSemaphore_zeroWait hz pid _)
         intro x
         rfl)
      | (apply slotsConsistent_fillFirst hs
         intro x
         rfl)
      | exact signalSemaphore_mutexBounded_other
          (signalSemaphore_mutexBounded_le_zero
            (waitSemaphore_mutexBounded hm pid _)
            (waitSemaphore_success_mutex (by assumption) hm))
          (by decide)
      | (apply signalSemaphore_zeroWait
         apply signalSemaphore_zeroWait
         apply zeroWait_fillFirst_preserve (waitSemaphore_zeroWait hz pid _)
         intro x
         rfl)

theorem foldl_totalWaitTime_zero {l : List Process}
    (h : ∀ p ∈ l, p.totalWaitTime = 0) :
    ∀ acc : Nat, l.foldl (fun sum p => sum + p.totalWaitTime) acc = acc := by
  induction l with
  | nil => intro acc; rfl
  | cons p ps ih =>
    intro acc
    rw [List.foldl_cons, h p (List.mem_cons_self _ _), Nat.add_zero]
    exact ih (fun q hq => h q (List.mem_cons_of_mem _ hq)) acc

/-- Any state rebuilt by `createInitialState` (with any animation speed
and playing flag) satisfies the engine invariant. -/
theorem engineInv_rebuild (cfg : SimulationConfig) (sp : Rat) (pl : Bool) :
    EngineInv { createInitialState cfg with animationSpeed := sp, isPlaying := pl } := by
  refine ⟨?_, ?_, ?_, rfl, ?_⟩
  · intro sem hmem hname
    simp [createInitialState] at hmem
    rcases hmem with rfl | rfl | rfl
    · exact SemName.noConfusion hname
    · exact SemName.noConfusion hname
    · exact ⟨by decide, by decide⟩
  · intro slot hmem
    simp [createInitialState] at hmem
    obtain ⟨i, _, rfl⟩ := hmem
    rfl
  · intro p hmem
    simp [createInitialState, mkProcesses] at hmem
    rcases hmem with ⟨i, _, rfl⟩ | ⟨i, _, rfl⟩ <;> rfl
  · intro snap hmem
    simp [createInitialState] at hmem

theorem engineInv_createInitialState (cfg : SimulationConfig) :
    EngineInv (createInitialState cfg) :=
  engineInv_rebuild cfg cfg.animationSpeed false

/-- Every reducer command preserves the engine invariant. -/
theorem engineInv_reducer {s : SimulationState}
    (h : EngineInv s) (a : SimulationAction) (n : Nat) :
    EngineInv (simulationReducer s a n) := by
  obtain ⟨hm, hs, hz, ha, hh⟩ := h
  cases a with
  | setConfig cfg =>
    simp only [simulationReducer]
    split
    · exact engineInv_rebuild cfg cfg.animationSpeed false
    · exact ⟨hm, hs, hz, ha, hh⟩
  | startSimulation =>
    simp only [simulationReducer]
    split
    · exact ⟨hm, hs, hz, ha, hh⟩
    · exact ⟨hm, hs, hz, ha, hh⟩
  | pauseSimulation =>
    simp only [simulationReducer]
    split
    · exact ⟨hm, hs, hz, ha, hh⟩
    · exact ⟨hm, hs, hz, ha, hh⟩
  | setSpeed sp =>
    simp only [simulationReducer]
    split
    · exact ⟨hm, hs, hz, ha, hh⟩
    · exact ⟨hm, hs, hz, ha, hh⟩
  | resetSimulation =>
    exact engineInv_rebuild s.config s.animationSpeed false
  | stepForward =>
    simp only [simulationReducer]
    split
    · exact ⟨hm, hs, hz, ha, hh⟩
    · rename_i p rest heq
      split
      · obtain ⟨im, is, iz⟩ := executeProducerStep_inv hm hs hz p.id n
        obtain ⟨f1, f2, f3, f4, f5, f6, f7⟩ := executeProducerStep_frame s p.id n
        split
        · refine ⟨im, is, iz, ?_, ?_⟩
          · simp only []
            rw [foldl_totalWaitTime_zero iz 0]
            split <;> simp
          · intro snap' hmem
            rcases List.mem_append.mp hmem with hold | hnew
            · exact hh snap' hold
            · obtain rfl : snap' = createStateSnapshot
                  (executeProducerStep s p.id n).newState (s.currentStep + 1)
                  (executeProducerStep s p.id n).action p.id := by
                simpa using hnew
              exact ⟨im, is, iz, by simpa [createStateSnapshot, f7] using ha⟩
        · exact ⟨im, is, iz, by rw [f7]; exact ha, by rw [f3]; exact hh⟩
      · obtain ⟨im, is, iz⟩ := executeConsumerStep_inv hm hs hz p.id n
        obtain ⟨f1, f2, f3, f4, f5, f6, f7⟩ := executeConsumerStep_frame s p.id n
        split
        · refine ⟨im, is, iz, ?_, ?_⟩
          · simp only []
            rw [foldl_totalWaitTime_zero iz 0]
            split <;> simp
          · intro snap' hmem
            rcases List.mem_append.mp hmem with hold | hnew
            · exact hh snap' hold
            · obtain rfl : snap' = createStateSnapshot
                  (executeConsumerStep s p.id n).newState (s.currentStep + 1)
                  (executeConsumerStep s p.id n).action p.id := by
                simpa using hnew
              exact ⟨im, is, iz, by simpa [createStateSnapshot, f7] using ha⟩
        · exact ⟨im, is, iz, by rw [f7]; exact ha, by rw [f3]; exact hh⟩
  | stepBackward =>
    simp only [simulationReducer]
    split
    · exact ⟨hm, hs, hz, ha, hh⟩
    · split
      · exact engineInv_rebuild s.config s.animationSpeed s.isPlaying
      · rename_i snap hget
        have hsnapmem : snap ∈ s.history := by
          split at hget
          · exact List.get?_mem hget
          · simp at hget
        obtain ⟨sm, ss, sz, sa⟩ := hh snap hsnapmem
        refine ⟨sm, ss, sz, sa, ?_⟩
        intro snap' hmem
        exact hh snap' (List.take_subset _ _ hmem)
  | jumpToStep t =>
    simp only [simulationReducer]
    split
    · exact ⟨hm, hs, hz, ha, hh⟩
    · split
      · exact engineInv_rebuild s.config s.animationSpeed s.isPlaying
      · split
        · exact ⟨hm, hs, hz, ha, hh⟩
        · rename_i snap hget
          have hsnapmem : snap ∈ s.history := List.get?_mem hget
          obtain ⟨sm, ss, sz, sa⟩ := hh snap hsnapmem
          refine ⟨sm, ss, sz, sa, ?_⟩
          intro snap' hmem
          exact hh snap' (List.take_subset _ _ hmem)

theorem engineInv_runCommands :
    ∀ (l : List (SimulationAction × Nat)) (s : SimulationState),
    EngineInv s → EngineInv (runCommands s l) := by
  intro l
  induction l with
  | nil => exact fun s h => h
  | cons c l' ih =>
    intro s h
    rw [runCommands_cons]
    exact ih _ (engineInv_reducer h c.1 c.2)

/-- Every reachable state satisfies the engine invariant. -/
theorem engineInv_reachable {s : SimulationState} (h : ReachableState s) :
    EngineInv s := by
  obtain ⟨cfg, cmds, rfl⟩ := h
  exact engineInv_runCommands cmds _ (engineInv_createInitialState cfg)

theorem stripState_eq_iff {s1 s2 : SimulationState} :
    stripState s1 = stripState s2 ↔
      (s1.config = s2.config ∧ s1.semaphores = s2.semaphores ∧
       s1.processes = s2.processes ∧
       s1.buffer.map stripSlot = s2.buffer.map stripSlot ∧
       s1.currentStep = s2.currentStep ∧ s1.isPlaying = s2.isPlaying ∧
       s1.animationSpeed = s2.animationSpeed ∧
       s1.history.map stripSnapshot = s2.history.map stripSnapshot ∧
       s1.statistics = s2.statistics) := by
  simp [stripState]

theorem stripSnapshot_eq_iff {h1 h2 : SimulationSnapshot} :
    stripSnapshot h1 = stripSnapshot h2 ↔
      (h1.stepNumber = h2.stepNumber ∧ h1.action = h2.action ∧
       h1.processId = h2.processId ∧ h1.semaphores = h2.semaphores ∧
       h1.processes = h2.processes ∧
       h1.buffer.map stripSlot = h2.buffer.map stripSlot ∧
       h1.statistics = h2.statistics) := by
  simp [stripSnapshot]

theorem find?_occupied_strip {b1 b2 : List BufferSlot} {q : Bool → Bool}
    (h : b1.map stripSlot = b2.map stripSlot) :
    (b1.find? fun slot => q slot.occupied).map stripSlot =
      (b2.find? fun slot => q slot.occupied).map stripSlot := by
  have hq : ∀ b : List BufferSlot,
      (b.map stripSlot).find? (fun slot => q slot.occupied) =
        (b.find? fun slot => q slot.occupied).map stripSlot := by
    intro b
    exact List.find?_map _ b
  rw [← hq, ← hq, h]

theorem filter_occupied_strip {b1 b2 : List BufferSlot}
    (h : b1.map stripSlot = b2.map stripSlot) :
    (b1.filter fun slot => slot.occupied).length =
      (b2.filter fun slot => slot.occupied).length := by
  have hq : ∀ b : List BufferSlot,
      ((b.map stripSlot).filter fun slot => slot.occupied).length =
        (b.filter fun slot => slot.occupied).length := by
    intro b
    rw [List.filter_map]
    exact List.length_map _ _
  rw [← hq, ← hq, h]

theorem calculateBufferUtilization_strip {b1 b2 : List BufferSlot}
    (h : b1.map stripSlot = b2.map stripSlot) :
    calculateBufferUtilization b1 = calculateBufferUtilization b2 := by
  have hlen : b1.length = b2.length := by
    have := congrArg List.length h
    simpa using this
  simp only [calculateBufferUtilization, hlen, filter_occupied_strip h]

theorem map_stripSlot_fillItem (b : List BufferSlot) (idStr pid : String) (n : Nat) :
    (fillFirst (fun slot => !slot.occupied)
      (fun slot => { slot with
        occupied := true,
        item := some { id := idStr, producedBy := pid, timestamp := n } }) b).map stripSlot =
    fillFirst (fun slot => !slot.occupied)
      (fun slot => { slot with
        occupied := true,
        item := some { id := idStr, producedBy := pid } }) (b.map stripSlot) := by
  apply map_fillFirst <;> intro x <;> rfl

theorem map_stripSlot_clearItem (b : List BufferSlot) :
    (fillFirst (fun slot => slot.occupied)
      (fun slot => { slot with occupied := false, item := none }) b).map stripSlot =
    fillFirst (fun slot => slot.occupied)
      (fun slot => { slot with occupied := false, item := none }) (b.map stripSlot) := by
  apply map_fillFirst <;> intro x <;> rfl

/-- The producer micro-step is insensitive to the ambient clock up to the
stripped view: on strip-equal states it emits the same action and success
flag and produces strip-equal states. -/
theorem executeProducerStep_strip {s1 s2 : SimulationState} (pid : String)
    (n1 n2 : Nat) (h : stripState s1 = stripState s2) :
    (executeProducerStep s1 pid n1).action = (executeProducerStep s2 pid n2).action ∧
    (executeProducerStep s1 pid n1).success = (executeProducerStep s2 pid n2).success ∧
    stripState (executeProducerStep s1 pid n1).newState =
      stripState (executeProducerStep s2 pid n2).newState := by
  obtain ⟨hc, hsem, hproc, hbuf, hstep, hplay, hspeed, hhist, hstat⟩ :=
    stripState_eq_iff.mp h
  simp only [executeProducerStep, hproc, hsem, hstep, hstat]
  cases hfind : getProcessById s2.processes pid with
  | none => exact ⟨rfl, rfl, h⟩
  | some proc =>
    simp only [hfind]
    by_cases hty : proc.type = ProcessType.producer
    · rw [if_pos hty, if_pos hty]
      by_cases hop : proc.currentOperation = none
      · rw [if_pos hop, if_pos hop]
        by_cases hw : (waitSemaphore s2.semaphores s2.processes pid SemName.empty).success = true
        · rw [if_pos hw, if_pos hw]
          exact ⟨rfl, rfl, stripState_eq_iff.mpr
            ⟨hc, rfl, rfl, hbuf, rfl, hplay, hspeed, hhist, rfl⟩⟩
        · rw [if_neg hw, if_neg hw]
          exact ⟨rfl, rfl, stripState_eq_iff.mpr
            ⟨hc, rfl, rfl, hbuf, rfl, hplay, hspeed, hhist, rfl⟩⟩
      · rw [if_neg hop, if_neg hop]
        by_cases hop2 : proc.currentOperation = some ProcessOp.producing ∧ proc.waitingOn = none
        · rw [if_pos hop2, if_pos hop2]
          by_cases hw : (waitSemaphore s2.semaphores s2.processes pid SemName.mutex).success = true
          · rw [if_pos hw, if_pos hw]
            have hfq := find?_occupied_strip (q := fun b => !b) hbuf
            cases hf1 : s1.buffer.find? (fun slot => !slot.occupied) with
            | none =>
              cases hf2 : s2.buffer.find? (fun slot => !slot.occupied) with
              | none =>
                exact ⟨rfl, rfl, stripState_eq_iff.mpr
                  ⟨hc, rfl, rfl, hbuf, rfl, hplay, hspeed, hhist, rfl⟩⟩
              | some slot2 =>
                rw [hf1, hf2] at hfq
                simp at hfq
            | some slot1 =>
              cases hf2 : s2.buffer.find? (fun slot => !slot.occupied) with
              | none =>
                rw [hf1, hf2] at hfq
                simp at hfq
              | some slot2 =>
                have hbuf2 :
                    (fillFirst (fun slot => !slot.occupied)
                      (fun slot => { slot with
                        occupied := true,
                        item := some { id := "item-" ++ toString s2.currentStep ++ "-" ++ pid,
                                       producedBy := pid, timestamp := n1 } }) s1.buffer).map stripSlot =
                    (fillFirst (fun slot => !slot.occupied)
                      (fun slot => { slot with
                        occupied := true,
                        item := some { id := "item-" ++ toString s2.currentStep ++ "-" ++ pid,
                                       producedBy := pid, timestamp := n2 } }) s2.buffer).map stripSlot := by
                  rw [map_stripSlot_fillItem, map_stripSlot_fillItem, hbuf]
                refine ⟨rfl, rfl, stripState_eq_iff.mpr
                  ⟨hc, rfl, rfl, hbuf2, rfl, hplay, hspeed, hhist, ?_⟩⟩
                rw [calculateBufferUtilization_strip hbuf2]
          · rw [if_neg hw, if_neg hw]
            exact ⟨rfl, rfl, stripState_eq_iff.mpr
              ⟨hc, rfl, rfl, hbuf, rfl, hplay, hspeed, hhist, rfl⟩⟩
        · rw [if_neg hop2, if_neg hop2]
          exact ⟨rfl, rfl, h⟩
    · rw [if_neg hty, if_neg hty]
      exact ⟨rfl, rfl, h⟩

/-- Consumer analogue of `executeProducerStep_strip`. -/
theorem executeConsumerStep_strip {s1 s2 : SimulationState} (pid : String)
    (n1 n2 : Nat) (h : stripState s1 = stripState s2) :
    (executeConsumerStep s1 pid n1).action = (executeConsumerStep s2 pid n2).action ∧
    (executeConsumerStep s1 pid n1).success = (executeConsumerStep s2 pid n2).success ∧
    stripState (executeConsumerStep s1 pid n1).newState =
      stripState (executeConsumerStep s2 pid n2).newState := by
  obtain ⟨hc, hsem, hproc, hbuf, hstep, hplay, hspeed, hhist, hstat⟩ :=
    stripState_eq_iff.mp h
  simp only [executeConsumerStep, hproc, hsem, hstep, hstat]
  cases hfind : getProcessById s2.processes pid with
  | none => exact ⟨rfl, rfl, h⟩
  | some proc =>
    simp only [hfind]
    by_cases hty : proc.type = ProcessType.consumer
    · rw [if_pos hty, if_pos hty]
      by_cases hop : proc.currentOperation = none
      · rw [if_pos hop, if_pos hop]
        by_cases hw : (waitSemaphore s2.semaphores s2.processes pid SemName.full).success = true
        · rw [if_pos hw, if_pos hw]
          exact ⟨rfl, rfl, stripState_eq_iff.mpr
            ⟨hc, rfl, rfl, hbuf, rfl, hplay, hspeed, hhist, rfl⟩⟩
        · rw [if_neg hw, if_neg hw]
          exact ⟨rfl, rfl, stripState_eq_iff.mpr
            ⟨hc, rfl, rfl, hbuf, rfl, hplay, hspeed, hhist, rfl⟩⟩
      · rw [if_neg hop, if_neg hop]
        by_cases hop2 : proc.currentOperation = some ProcessOp.consuming ∧ proc.waitingOn = none
        · rw [if_pos hop2, if_pos hop2]
          by_cases hw : (waitSemaphore s2.semaphores s2.processes pid SemName.mutex).success = true
          · rw [if_pos hw, if_pos hw]
            have hfq := find?_occupied_strip (q := fun b => b) hbuf
            cases hf1 : s1.buffer.find? (fun slot => slot.occupied) with
            | none =>
              cases hf2 : s2.buffer.find? (fun slot => slot.occupied) with
              | none =>
                exact ⟨rfl, rfl, stripState_eq_iff.mpr
                  ⟨hc, rfl, rfl, hbuf, rfl, hplay, hspeed, hhist, rfl⟩⟩
              | some slot2 =>
                rw [hf1, hf2] at hfq
                simp at hfq
            | some slot1 =>
              cases hf2 : s2.buffer.find? (fun slot => slot.occupied) with
              | none =>
                rw [hf1, hf2] at hfq
                simp at hfq
              | some slot2 =>
                have hbuf2 :
                    (fillFirst (fun slot => slot.occupied)
                      (fun slot => { slot with occupied := false, item := none })
                        s1.buffer).map stripSlot =
                    (fillFirst (fun slot => slot.occupied)
                      (fun slot => { slot with occupied := false, item := none })
                        s2.buffer).map stripSlot := by
                  rw [map_stripSlot_clearItem, map_stripSlot_clearItem, hbuf]
                refine ⟨rfl, rfl, stripState_eq_iff.mpr
                  ⟨hc, rfl, rfl, hbuf2, rfl, hplay, hspeed, hhist, ?_⟩⟩
                rw [calculateBufferUtilization_strip hbuf2]
          · rw [if_neg hw, if_neg hw]
            exact ⟨rfl, rfl, stripState_eq_iff.mpr
              ⟨hc, rfl, rfl, hbuf, rfl, hplay, hspeed, hhist, rfl⟩⟩
        · rw [if_neg hop2, if_neg hop2]
          exact ⟨rfl, rfl, h⟩
    · rw [if_neg hty, if_neg hty]
      exact ⟨rfl, rfl, h⟩

/-- The reducer is insensitive to the ambient clock up to the stripped
view: the two clock readings `n1`, `n2` may differ arbitrarily. -/
theorem simulationReducer_strip {s1 s2 : SimulationState} {a : SimulationAction}
    {n1 n2 : Nat} (h : stripState s1 = stripState s2) :
    stripState (simulationReducer s1 a n1) = stripState (simulationReducer s2 a n2) := by
  obtain ⟨hc, hsem, hproc, hbuf, hstep, hplay, hspeed, hhist, hstat⟩ :=
    stripState_eq_iff.mp h
  have hlen : s1.history.length = s2.history.length := by
    have := congrArg List.length hhist
    simpa using this
  cases a with
  | setConfig cfg =>
    simp only [simulationReducer]
    by_cases hv : isValidConfig cfg = true
    · rw [if_pos hv, if_pos hv]
    · rw [if_neg hv, if_neg hv]
      exact h
  | startSimulation =>
    simp only [simulationReducer, hplay]
    by_cases hp : s2.isPlaying = true
    · rw [if_pos hp, if_pos hp]
      exact h
    · rw [if_neg hp, if_neg hp]
      exact stripState_eq_iff.mpr
        ⟨hc, hsem, hproc, hbuf, hstep, rfl, hspeed, hhist, hstat⟩
  | pauseSimulation =>
    simp only [simulationReducer, hplay]
    by_cases hp : s2.isPlaying = true
    · rw [if_pos hp, if_pos hp]
      exact stripState_eq_iff.mpr
        ⟨hc, hsem, hproc, hbuf, hstep, rfl, hspeed, hhist, hstat⟩
    · rw [if_neg hp, if_neg hp]
      exact h
  | setSpeed sp =>
    simp only [simulationReducer]
    by_cases hv : sp < (1 : Rat)/2 ∨ 3 < sp
    · rw [if_pos hv, if_pos hv]
      exact h
    · rw [if_neg hv, if_neg hv]
      exact stripState_eq_iff.mpr
        ⟨hc, hsem, hproc, hbuf, hstep, hplay, rfl, hhist, hstat⟩
  | resetSimulation =>
    simp only [simulationReducer]
    rw [hc, hspeed]
  | stepBackward =>
    simp only [simulationReducer, hstep, hlen]
    by_cases hg : s2.history.length = 0 ∨ s2.currentStep = 0
    · rw [if_pos hg, if_pos hg]
      exact h
    · rw [if_neg hg, if_neg hg]
      by_cases h2 : 2 ≤ s2.currentStep
      · rw [if_pos h2, if_pos h2]
        have hget : (s1.history.get? (s2.currentStep - 2)).map stripSnapshot =
            (s2.history.get? (s2.currentStep - 2)).map stripSnapshot := by
          have := congrArg (fun l => l.get? (s2.currentStep - 2)) hhist
          simpa [List.get?_map] using this
        cases hq1 : s1.history.get? (s2.currentStep - 2) with
        | none =>
          cases hq2 : s2.history.get? (s2.currentStep - 2) with
          | none =>
            simp only [hq1, hq2]
            rw [hc, hspeed, hplay]
          | some snap2 =>
            rw [hq1, hq2] at hget
            simp at hget
        | some snap1 =>
          cases hq2 : s2.history.get? (s2.currentStep - 2) with
          | none =>
            rw [hq1, hq2] at hget
            simp at hget
          | some snap2 =>
            simp only [hq1, hq2]
            rw [hq1, hq2] at hget
            obtain ⟨e1, e2, e3, e4, e5, e6, e7⟩ :=
              stripSnapshot_eq_iff.mp (by simpa using hget)
            apply stripState_eq_iff.mpr
            refine ⟨hc, e4, e5, e6, e1, hplay, hspeed, ?_, e7⟩
            simp only [List.map_take, hhist, e1]
      · rw [if_neg h2, if_neg h2]
        simp only []
        rw [hc, hspeed, hplay]
  | jumpToStep t =>
    simp only [simulationReducer, hlen]
    by_cases hg : t < 0 ∨ (s2.history.length : Int) < t
    · rw [if_pos hg, if_pos hg]
      exact h
    · rw [if_neg hg, if_neg hg]
      by_cases h0 : t = 0
      · rw [if_pos h0, if_pos h0]
        rw [hc, hspeed, hplay]
      · rw [if_neg h0, if_neg h0]
        have hget : (s1.history.get? (t.toNat - 1)).map stripSnapshot =
            (s2.history.get? (t.toNat - 1)).map stripSnapshot := by
          have := congrArg (fun l => l.get? (t.toNat - 1)) hhist
          simpa [List.get?_map] using this
        cases hq1 : s1.history.get? (t.toNat - 1) with
        | none =>
          cases hq2 : s2.history.get? (t.toNat - 1) with
          | none =>
            simp only [hq1, hq2]
            exact h
          | some snap2 =>
            rw [hq1, hq2] at hget
            simp at hget
        | some snap1 =>
          cases hq2 : s2.history.get? (t.toNat - 1) with
          | none =>
            rw [hq1, hq2] at hget
            simp at hget
          | some snap2 =>
            simp only [hq1, hq2]
            rw [hq1, hq2] at hget
            obtain ⟨e1, e2, e3, e4, e5, e6, e7⟩ :=
              stripSnapshot_eq_iff.mp (by simpa using hget)
            apply stripState_eq_iff.mpr
            refine ⟨hc, e4, e5, e6, e1, hplay, hspeed, ?_, e7⟩
            simp only [List.map_take, hhist]
  | stepForward =>
    simp only [simulationReducer, hproc, hstep]
    cases hr : s2.processes.filter
        (fun p => decide (p.state = ProcessState.ready) ||
          decide (p.state = ProcessState.running)) with
    | nil =>
      simp only [hr]
      exact h
    | cons p rest =>
      simp only [hr]
      by_cases hty : p.type = ProcessType.producer
      · rw [if_pos hty, if_pos hty]
        obtain ⟨ea, es, est⟩ :=
          executeProducerStep_strip p.id n1 n2 h
        obtain ⟨ec, esem, eproc, ebuf, ecs, epl, esp, ehist, estat⟩ :=
          stripState_eq_iff.mp est
        by_cases hcond : (executeProducerStep s2 p.id n2).success = true ∨
            (executeProducerStep s2 p.id n2).action ≠ ""
        · have hcond1 : (executeProducerStep s1 p.id n1).success = true ∨
              (executeProducerStep s1 p.id n1).action ≠ "" := by
            rw [ea, es]
            exact hcond
          rw [if_pos hcond1, if_pos hcond]
          apply stripState_eq_iff.mpr
          refine ⟨ec, esem, eproc, ebuf, rfl, epl, esp, ?_, ?_⟩
          · simp only [List.map_append, List.map_cons, List.map_nil, hhist]
            congr 1
            congr 1
            apply stripSnapshot_eq_iff.mpr
            exact ⟨rfl, ea, rfl, esem, eproc, ebuf, estat⟩
          · simp only [estat, eproc]
        · have hcond1 : ¬((executeProducerStep s1 p.id n1).success = true ∨
              (executeProducerStep s1 p.id n1).action ≠ "") := by
            rw [ea, es]
            exact hcond
          rw [if_neg hcond1, if_neg hcond]
          exact est
      · rw [if_neg hty, if_neg hty]
        obtain ⟨ea, es, est⟩ :=
          executeConsumerStep_strip p.id n1 n2 h
        obtain ⟨ec, esem, eproc, ebuf, ecs, epl, esp, ehist, estat⟩ :=
          stripState_eq_iff.mp est
        by_cases hcond : (executeConsumerStep s2 p.id n2).success = true ∨
            (executeConsumerStep s2 p.id n2).action ≠ ""
        · have hcond1 : (executeConsumerStep s1 p.id n1).success = true ∨
              (executeConsumerStep s1 p.id n1).action ≠ "" := by
            rw [ea, es]
            exact hcond
          rw [if_pos hcond1, if_pos hcond]
          apply stripState_eq_iff.mpr
          refine ⟨ec, esem, eproc, ebuf, rfl, epl, esp, ?_, ?_⟩
          · simp only [List.map_append, List.map_cons, List.map_nil, hhist]
            congr 1
            congr 1
            apply stripSnapshot_eq_iff.mpr
            exact ⟨rfl, ea, rfl, esem, eproc, ebuf, estat⟩
          · simp only [estat, eproc]
        · have hcond1 : ¬((executeConsumerStep s1 p.id n1).success = true ∨
              (executeConsumerStep s1 p.id n1).action ≠ "") := by
            rw [ea, es]
            exact hcond
          rw [if_neg hcond1, if_neg hcond]
          exact est

theorem runCommands_strip :
    ∀ (l1 l2 : List (SimulationAction × Nat)) (s1 s2 : SimulationState),
    l1.map Prod.fst = l2.map Prod.fst →
    stripState s1 = stripState s2 →
    stripState (runCommands s1 l1) = stripState (runCommands s2 l2) := by
  intro l1
  induction l1 with
  | nil =>
    intro l2 s1 s2 hmap h
    obtain rfl : l2 = [] := by simpa using hmap.symm
    exact h
  | cons c l1' ih =>
    intro l2 s1 s2 hmap h
    cases l2 with
    | nil => simp at hmap
    | cons d l2' =>
      simp only [List.map_cons, List.cons.injEq] at hmap
      obtain ⟨hcd, hrest⟩ := hmap
      rw [runCommands_cons, runCommands_cons, hcd]
      exact ih l2' _ _ hrest (simulationReducer_strip h)

/-- C1 (amended): `StepForward` either appends exactly one snapshot and
increments `currentStep`, or leaves history and `currentStep` unchanged;
a step in which the selected process blocks on a semaphore is in the
*former* class.  Concretely, with config `{1,2,1,1.0}` the third step
blocks P1 on `empty` (action `"P1 waiting for empty slot"`), appends a
third snapshot recording that action, and sets `currentStep` to 3. -/
theorem claim_C1_amended :
    (∀ (s : SimulationState) (n : Nat),
      ((simulationReducer s SimulationAction.stepForward n).currentStep =
          s.currentStep + 1 ∧
        (simulationReducer s SimulationAction.stepForward n).history.length =
          s.history.length + 1) ∨
      ((simulationReducer s SimulationAction.stepForward n).currentStep =
          s.currentStep ∧
        (simulationReducer s SimulationAction.stepForward n).history =
          s.history)) ∧
    (getProcessById
        (runCommands (createInitialState cfg121) (forwardCommands [0, 0, 0])).processes
        "P1" =
      some { id := "P1", type := ProcessType.producer, state := ProcessState.blocked,
             currentOperation := none, waitingOn := some SemName.empty,
             itemsProcessed := 1, totalWaitTime := 0 } ∧
     getSemaphoreByName
        (runCommands (createInitialState cfg121) (forwardCommands [0, 0, 0])).semaphores
        SemName.empty =
      some { name := SemName.empty, value := 0, waitingQueue := ["P1"] } ∧
     (runCommands (createInitialState cfg121) (forwardCommands [0, 0, 0])).currentStep = 3 ∧
     (runCommands (createInitialState cfg121) (forwardCommands [0, 0, 0])).history.length = 3 ∧
     ((runCommands (createInitialState cfg121) (forwardCommands [0, 0, 0])).history.get? 2).map
        SimulationSnapshot.action = some "P1 waiting for empty slot") := by
  constructor
  · intro s n
    rcases stepForward_cases s n with ⟨snap, _, hh, hcx⟩ | ⟨hh, hcx⟩
    · exact Or.inl ⟨hcx, by rw [hh]; simp⟩
    · exact Or.inr ⟨hcx, hh⟩
  · exact ⟨by decide, by decide, by decide, by decide, by decide⟩

/-- C1 counterexample: with config `{1,2,1,1.0}`, the third `StepForward`
blocks P1 on the `empty` semaphore, yet a snapshot with action
`"P1 waiting for empty slot"` *is* appended and `currentStep` *does*
change from 2 to 3, contradicting the claim that a blocking step appends
no snapshot and leaves `currentStep` unchanged. -/
theorem claim_C1_counterexample :
    (getProcessById
        (runCommands (createInitialState cfg121) (forwardCommands [0, 0, 0])).processes
        "P1").map Process.state = some ProcessState.blocked ∧
    ((runCommands (createInitialState cfg121) (forwardCommands [0, 0, 0])).history.get? 2).map
        SimulationSnapshot.action = some "P1 waiting for empty slot" ∧
    (runCommands (createInitialState cfg121) (forwardCommands [0, 0])).currentStep = 2 ∧
    (runCommands (createInitialState cfg121) (forwardCommands [0, 0])).history.length = 2 ∧
    (runCommands (createInitialState cfg121) (forwardCommands [0, 0, 0])).currentStep = 3 ∧
    (runCommands (createInitialState cfg121) (forwardCommands [0, 0, 0])).history.length = 3 := by
  exact ⟨by decide, by decide, by decide, by decide, by decide, by decide⟩

/-- C2: for every valid configuration and every `k`, executing `k`
`StepForward`s (with arbitrary clock readings) followed by `k`
`StepBackward`s from a freshly constructed initial state yields a state
equal to that initial state in its semaphores, processes, buffer,
statistics and step count. -/
theorem claim_C2 (cfg : SimulationConfig) (h' : isValidConfig cfg = true)
    (ts : List Nat) :
    (runCommands (runCommands (createInitialState cfg) (forwardCommands ts))
        (backwardCommands ts)).semaphores = (createInitialState cfg).semaphores ∧
    (runCommands (runCommands (createInitialState cfg) (forwardCommands ts))
        (backwardCommands ts)).processes = (createInitialState cfg).processes ∧
    (runCommands (runCommands (createInitialState cfg) (forwardCommands ts))
        (backwardCommands ts)).buffer = (createInitialState cfg).buffer ∧
    (runCommands (runCommands (createInitialState cfg) (forwardCommands ts))
        (backwardCommands ts)).statistics = (createInitialState cfg).statistics ∧
    (runCommands (runCommands (createInitialState cfg) (forwardCommands ts))
        (backwardCommands ts)).currentStep = (createInitialState cfg).currentStep := by
  have hfwd : ∀ c ∈ forwardCommands ts, c.1 = SimulationAction.stepForward := by
    intro c hcm
    simp only [forwardCommands, List.mem_map] at hcm
    obtain ⟨t, _, rfl⟩ := hcm
    rfl
  have hbwd : ∀ c ∈ backwardCommands ts, c.1 = SimulationAction.stepBackward := by
    intro c hcm
    simp only [backwardCommands, List.mem_map] at hcm
    obtain ⟨t, _, rfl⟩ := hcm
    rfl
  have hinv := runCommands_forward_inv _ _ hfwd
    (roundTripInv_createInitialState cfg)
  have hle := runCommands_forward_le (forwardCommands ts) (createInitialState cfg) hfwd
  have harm : runCommands (createInitialState cfg) (forwardCommands ts) =
      createInitialState cfg ∨
      1 ≤ (runCommands (createInitialState cfg) (forwardCommands ts)).currentStep :=
    runCommands_forward_init_or _ _ hfwd (Or.inl rfl)
  have hfinal : runCommands
      (runCommands (createInitialState cfg) (forwardCommands ts))
      (backwardCommands ts) = createInitialState cfg := by
    apply runCommands_backward_eq_init _ _ hbwd hinv
    rcases harm with he | hge
    · exact Or.inl he
    · refine Or.inr ⟨hge, ?_⟩
      have h1 : (forwardCommands ts).length = ts.length := by
        simp [forwardCommands]
      have h2 : (backwardCommands ts).length = ts.length := by
        simp [backwardCommands]
      have h0 : (createInitialState cfg).currentStep = 0 := rfl
      omega
  rw [hfinal]
  exact ⟨rfl, rfl, rfl, rfl, rfl⟩

/-- C2 witness at the spec scenario `{5,2,2,1.0}` with five forward and
five backward steps. -/
theorem claim_C2_witness :
    (runCommands (runCommands (createInitialState cfg5221)
        (forwardCommands [0, 0, 0, 0, 0]))
        (backwardCommands [0, 0, 0, 0, 0])).semaphores =
      (createInitialState cfg5221).semaphores ∧
    (runCommands (runCommands (createInitialState cfg5221)
        (forwardCommands [0, 0, 0, 0, 0]))
        (backwardCommands [0, 0, 0, 0, 0])).processes =
      (createInitialState cfg5221).processes ∧
    (runCommands (runCommands (createInitialState cfg5221)
        (forwardCommands [0, 0, 0, 0, 0]))
        (backwardCommands [0, 0, 0, 0, 0])).buffer =
      (createInitialState cfg5221).buffer ∧
    (runCommands (runCommands (createInitialState cfg5221)
        (forwardCommands [0, 0, 0, 0, 0]))
        (backwardCommands [0, 0, 0, 0, 0])).statistics =
      (createInitialState cfg5221).statistics ∧
    (runCommands (runCommands (createInitialState cfg5221)
        (forwardCommands [0, 0, 0, 0, 0]))
        (backwardCommands [0, 0, 0, 0, 0])).currentStep =
      (createInitialState cfg5221).currentStep :=
  claim_C2 cfg5221 (by simp [isValidConfig, cfg5221]; norm_num) [0, 0, 0, 0, 0]

/-- C3 (amended): the item placed by a successful production carries the
id `item-<k>-<producer_id>` where `k` is the value of `currentStep`
*before* the completing micro-step, i.e. one less than the step number of
the appended snapshot; in particular after two `StepForward`s on config
`{1,1,1,1.0}` slot 0 holds `item-1-P1`, not `item-2-P1`. -/
theorem claim_C3_amended (s : SimulationState) (pid : String) (proc : Process)
    (n : Nat)
    (hfind : getProcessById s.processes pid = some proc)
    (hty : proc.type = ProcessType.producer)
    (hop : proc.currentOperation = some ProcessOp.producing)
    (hwo : proc.waitingOn = none)
    (hw : (waitSemaphore s.semaphores s.processes pid SemName.mutex).success = true)
    (hslot : (s.buffer.find? fun slot => !slot.occupied).isSome = true) :
    (executeProducerStep s pid n).action = pid ++ " produced an item" ∧
    (executeProducerStep s pid n).newState.buffer =
      fillFirst (fun slot => !slot.occupied)
        (fun slot => { slot with
          occupied := true,
          item := some { id := "item-" ++ toString s.currentStep ++ "-" ++ pid,
                         producedBy := pid, timestamp := n } }) s.buffer := by
  simp only [executeProducerStep, hfind]
  rw [if_pos hty, if_neg (by simp [hop]), if_pos ⟨hop, hwo⟩, if_pos hw]
  cases hq : s.buffer.find? (fun slot => !slot.occupied) with
  | none =>
    rw [hq] at hslot
    simp at hslot
  | some slot =>
    simp only [hq]
    exact ⟨trivial, trivial⟩

/-- C3 witness: the state after one `StepForward` on config `{1,1,1,1.0}`
satisfies all premises, and the production step stamps the item id with
the pre-step counter value 1. -/
theorem claim_C3_amended_witness :
    (executeProducerStep
        (runCommands (createInitialState cfg111) [(SimulationAction.stepForward, 0)])
        "P1" 42).action = "P1" ++ " produced an item" ∧
    (executeProducerStep
        (runCommands (createInitialState cfg111) [(SimulationAction.stepForward, 0)])
        "P1" 42).newState.buffer =
      fillFirst (fun slot => !slot.occupied)
        (fun slot => { slot with
          occupied := true,
          item := some { id := "item-" ++ toString
                           (runCommands (createInitialState cfg111)
                             [(SimulationAction.stepForward, 0)]).currentStep ++ "-" ++ "P1",
                         producedBy := "P1", timestamp := 42 } })
        (runCommands (createInitialState cfg111)
          [(SimulationAction.stepForward, 0)]).buffer :=
  claim_C3_amended _ "P1"
    { id := "P1", type := ProcessType.producer, state := ProcessState.running,
      currentOperation := some ProcessOp.producing, waitingOn := none,
      itemsProcessed := 0, totalWaitTime := 0 } 42
    (by decide) rfl rfl rfl (by decide) (by decide)

/-- C3 counterexample: with config `{1,1,1,1.0}`, after two
`StepForward`s the item in slot 0 has id `item-1-P1` (the snapshot of
that step carries step number 2), so the claimed id `item-2-P1` is wrong. -/
theorem claim_C3_counterexample :
    (runCommands (createInitialState cfg111)
        [(SimulationAction.stepForward, 41), (SimulationAction.stepForward, 42)]).buffer.get? 0 =
      some { id := 0, occupied := true,
             item := some { id := "item-1-P1", producedBy := "P1", timestamp := 42 } } ∧
    ((runCommands (createInitialState cfg111)
        [(SimulationAction.stepForward, 41), (SimulationAction.stepForward, 42)]).history.get? 1).map
        SimulationSnapshot.stepNumber = some 2 ∧
    "item-1-P1" ≠ "item-2-P1" := by
  exact ⟨by decide, by decide, by decide⟩

/-- C4: evaluation at the failing input.  With config `{1,1,1,1.0}`,
after five `StepForward`s (produce, produce-complete, block P1 on
`empty`, consume-acquire, consume-complete with hand-off to P1) the
state is externally observed with `empty.value = 0` and `full.value = 0`
although `buffer_size = 1`, the buffer is entirely free and the mutex is
free with an empty queue: the permit handed off to P1 by `signal(empty)`
has been lost, so `empty + full = buffer_size` is violated between
steps. -/
theorem claim_C4_code_bug_eval :
    getSemaphoreByName
        (runCommands (createInitialState cfg111) (forwardCommands [0, 1, 2, 3, 4])).semaphores
        SemName.empty = some { name := SemName.empty, value := 0, waitingQueue := [] } ∧
    getSemaphoreByName
        (runCommands (createInitialState cfg111) (forwardCommands [0, 1, 2, 3, 4])).semaphores
        SemName.full = some { name := SemName.full, value := 0, waitingQueue := [] } ∧
    getSemaphoreByName
        (runCommands (createInitialState cfg111) (forwardCommands [0, 1, 2, 3, 4])).semaphores
        SemName.mutex = some { name := SemName.mutex, value := 1, waitingQueue := [] } ∧
    (runCommands (createInitialState cfg111) (forwardCommands [0, 1, 2, 3, 4])).config.bufferSize = 1 ∧
    (runCommands (createInitialState cfg111) (forwardCommands [0, 1, 2, 3, 4])).buffer =
      [{ id := 0, occupied := false, item := none }] ∧
    (0 : Int) + 0 ≠ 1 := by
  exact ⟨by decide, by decide, by decide, by decide, by decide, by decide⟩

/-- C5 (amended): for identical configuration and command sequence, any
two runs of the engine produce states and histories that agree on
everything except the clock-derived data (item timestamps and
`startTime`); the clock readings attached to the two runs may differ
arbitrarily. -/
theorem claim_C5_amended (cfg : SimulationConfig)
    (l1 l2 : List (SimulationAction × Nat))
    (h : l1.map Prod.fst = l2.map Prod.fst) :
    stripState (runCommands (createInitialState cfg) l1) =
      stripState (runCommands (createInitialState cfg) l2) :=
  runCommands_strip l1 l2 _ _ h rfl

/-- C5 witness: two forward steps with clock readings `0,0` versus `5,7`
still agree after stripping the clock-derived fields. -/
theorem claim_C5_amended_witness :
    stripState (runCommands (createInitialState cfg111)
      [(SimulationAction.stepForward, 0), (SimulationAction.stepForward, 0)]) =
    stripState (runCommands (createInitialState cfg111)
      [(SimulationAction.stepForward, 5), (SimulationAction.stepForward, 7)]) :=
  claim_C5_amended cfg111 _ _ (by decide)

/-- C5 counterexample: two runs with identical configuration and command
sequence but different clock readings produce *different* resulting
states (the produced item's timestamp differs), so the runs are not
bit-identical as claimed. -/
theorem claim_C5_counterexample :
    (runCommands (createInitialState cfg111)
      [(SimulationAction.stepForward, 0), (SimulationAction.stepForward, 0)]).buffer ≠
    (runCommands (createInitialState cfg111)
      [(SimulationAction.stepForward, 0), (SimulationAction.stepForward, 1)]).buffer := by
  decide

/-- C6: in every reachable state, every semaphore named `mutex` has
`0 ≤ value ≤ 1`. -/
theorem claim_C6 (s : SimulationState) (h : ReachableState s) (sem : Semaphore)
    (hmem : sem ∈ s.semaphores) (hname : sem.name = SemName.mutex) :
    0 ≤ sem.value ∧ sem.value ≤ 1 :=
  (engineInv_reachable h).1 sem hmem hname

/-- C6 witness at the freshly constructed default state. -/
theorem claim_C6_witness :
    0 ≤ (Semaphore.mk SemName.mutex 1 []).value ∧
      (Semaphore.mk SemName.mutex 1 []).value ≤ 1 :=
  claim_C6 (createInitialState DEFAULT_CONFIG) ⟨DEFAULT_CONFIG, [], rfl⟩
    (Semaphore.mk SemName.mutex 1 []) (by decide) rfl

/-- C7: `SetConfig` with an out-of-range configuration returns the input
state unchanged; with a valid configuration it rebuilds all entities:
`empty = buffer_size`, `full = 0`, `mutex = 1` with empty queues, all
processes ready with zero counters and no pending operation, all slots
unoccupied, `currentStep = 0`, `isPlaying = false`, empty history and
all-zero statistics. -/
theorem claim_C7 (s : SimulationState) (cfg : SimulationConfig) (n : Nat) :
    (isValidConfig cfg = false →
      simulationReducer s (SimulationAction.setConfig cfg) n = s) ∧
    (isValidConfig cfg = true →
      getSemaphoreByName (simulationReducer s (SimulationAction.setConfig cfg) n).semaphores
          SemName.empty =
        some { name := SemName.empty, value := cfg.bufferSize, waitingQueue := [] } ∧
      getSemaphoreByName (simulationReducer s (SimulationAction.setConfig cfg) n).semaphores
          SemName.full =
        some { name := SemName.full, value := 0, waitingQueue := [] } ∧
      getSemaphoreByName (simulationReducer s (SimulationAction.setConfig cfg) n).semaphores
          SemName.mutex =
        some { name := SemName.mutex, value := 1, waitingQueue := [] } ∧
      (∀ p ∈ (simulationReducer s (SimulationAction.setConfig cfg) n).processes,
        p.state = ProcessState.ready ∧ p.currentOperation = none ∧
        p.waitingOn = none ∧ p.itemsProcessed = 0 ∧ p.totalWaitTime = 0) ∧
      (∀ slot ∈ (simulationReducer s (SimulationAction.setConfig cfg) n).buffer,
        slot.occupied = false ∧ slot.item = none) ∧
      (simulationReducer s (SimulationAction.setConfig cfg) n).currentStep = 0 ∧
      (simulationReducer s (SimulationAction.setConfig cfg) n).isPlaying = false ∧
      (simulationReducer s (SimulationAction.setConfig cfg) n).history = [] ∧
      (simulationReducer s (SimulationAction.setConfig cfg) n).statistics =
        { totalItemsProduced := 0, totalItemsConsumed := 0,
          bufferUtilization := 0, averageWaitTime := 0 }) := by
  constructor
  · intro hv
    simp only [simulationReducer]
    rw [if_neg (by simp [hv])]
  · intro hv
    simp only [simulationReducer]
    rw [if_pos hv]
    refine ⟨?_, ?_, ?_, ?_, ?_, rfl, rfl, rfl, rfl⟩
    · simp [createInitialState, getSemaphoreByName, List.find?]
    · simp [createInitialState, getSemaphoreByName, List.find?]
    · simp [createInitialState, getSemaphoreByName, List.find?]
    · intro p hp
      simp only [createInitialState, mkProcesses, List.mem_append, List.mem_map] at hp
      rcases hp with ⟨i, _, rfl⟩ | ⟨i, _, rfl⟩ <;> exact ⟨rfl, rfl, rfl, rfl, rfl⟩
    · intro slot hslot
      simp only [createInitialState, List.mem_map] at hslot
      obtain ⟨i, _, rfl⟩ := hslot
      exact ⟨rfl, rfl⟩

/-- C7 witness: a config with `buffer_size = 0` is silently rejected, and
installing the default config resets the step counter. -/
theorem claim_C7_witness :
    simulationReducer (createInitialState DEFAULT_CONFIG)
        (SimulationAction.setConfig
          { bufferSize := 0, producerCount := 1, consumerCount := 1, animationSpeed := 1 }) 0 =
      createInitialState DEFAULT_CONFIG ∧
    (simulationReducer (createInitialState cfg111)
        (SimulationAction.setConfig DEFAULT_CONFIG) 0).history = [] :=
  ⟨(claim_C7 (createInitialState DEFAULT_CONFIG)
      { bufferSize := 0, producerCount := 1, consumerCount := 1, animationSpeed := 1 } 0).1
        (by simp [isValidConfig]),
   ((claim_C7 (createInitialState cfg111) DEFAULT_CONFIG 0).2
        (by simp [isValidConfig, DEFAULT_CONFIG]; norm_num)).2.2.2.2.2.2.2.1⟩

/-- C8 (amended): `JumpToStep(t)` returns the input unchanged when `t` is
out of range; for `t = 0` it returns the reconstructed initial state with
history cleared and *both* `animationSpeed` and `isPlaying` preserved
(the original claim omitted `isPlaying`); for `1 ≤ t ≤ len(history)` it
restores the snapshot at index `t-1` and truncates history to length `t`. -/
theorem claim_C8_amended (s : SimulationState) (t : Int) (n : Nat) :
    ((t < 0 ∨ (s.history.length : Int) < t) →
      simulationReducer s (SimulationAction.jumpToStep t) n = s) ∧
    (t = 0 →
      simulationReducer s (SimulationAction.jumpToStep t) n =
        { createInitialState s.config with
            animationSpeed := s.animationSpeed, isPlaying := s.isPlaying }) ∧
    (0 < t → t ≤ (s.history.length : Int) →
      ∀ snap, s.history.get? (t.toNat - 1) = some snap →
        simulationReducer s (SimulationAction.jumpToStep t) n =
          { s with
              semaphores := snap.semaphores, processes := snap.processes,
              buffer := snap.buffer, statistics := snap.statistics,
              currentStep := snap.stepNumber,
              history := s.history.take t.toNat }) := by
  refine ⟨?_, ?_, ?_⟩
  · intro hg
    simp only [simulationReducer]
    rw [if_pos hg]
  · intro h0
    simp only [simulationReducer]
    rw [if_neg (by omega), if_pos h0]
  · intro h1 h2 snap hget
    simp only [simulationReducer]
    rw [if_neg (by omega), if_neg (by omega), hget]

/-- C8 witness: out-of-range rejection, jump-to-zero reconstruction with
flags preserved, and in-range restoration, each at a concrete input. -/
theorem claim_C8_amended_witness :
    (simulationReducer (createInitialState cfg111) (SimulationAction.jumpToStep 5) 0 =
      createInitialState cfg111) ∧
    (simulationReducer (createInitialState cfg111) (SimulationAction.jumpToStep 0) 0 =
      { createInitialState (createInitialState cfg111).config with
          animationSpeed := (createInitialState cfg111).animationSpeed,
          isPlaying := (createInitialState cfg111).isPlaying }) ∧
    (∀ snap,
      (runCommands (createInitialState cfg111) (forwardCommands [0, 0])).history.get? 0 =
        some snap →
      simulationReducer (runCommands (createInitialState cfg111) (forwardCommands [0, 0]))
          (SimulationAction.jumpToStep 1) 0 =
        { runCommands (createInitialState cfg111) (forwardCommands [0, 0]) with
            semaphores := snap.semaphores, processes := snap.processes,
            buffer := snap.buffer, statistics := snap.statistics,
            currentStep := snap.stepNumber,
            history := (runCommands (createInitialState cfg111)
              (forwardCommands [0, 0])).history.take 1 } ) :=
  ⟨(claim_C8_amended (createInitialState cfg111) 5 0).1 (by decide),
   (claim_C8_amended (createInitialState cfg111) 0 0).2.1 rfl,
   (claim_C8_amended (runCommands (createInitialState cfg111) (forwardCommands [0, 0])) 1 0).2.2
     (by decide) (by decide)⟩

/-- C8 counterexample: `JumpToStep(0)` from a playing state returns a
state with `isPlaying = true`, whereas the claim describes the result as
the reconstructed initial state (whose `isPlaying` is `false`) with only
`animationSpeed` preserved. -/
theorem claim_C8_counterexample :
    (runCommands (createInitialState cfg111)
      [(SimulationAction.startSimulation, 5), (SimulationAction.jumpToStep 0, 0)]).isPlaying =
        true ∧
    (createInitialState cfg111).isPlaying = false ∧
    (runCommands (createInitialState cfg111)
      [(SimulationAction.startSimulation, 5), (SimulationAction.jumpToStep 0, 0)]).animationSpeed =
        cfg111.animationSpeed ∧
    runCommands (createInitialState cfg111)
      [(SimulationAction.startSimulation, 5), (SimulationAction.jumpToStep 0, 0)] ≠
        createInitialState cfg111 := by
  exact ⟨by decide, by decide, by decide, by decide⟩

/-- C9: in every reachable state, and in every snapshot stored in its
history, a buffer slot is occupied exactly when its item field is
present. -/
theorem claim_C9 (s : SimulationState) (h : ReachableState s) :
    (∀ slot ∈ s.buffer, slot.occupied = true ↔ slot.item.isSome = true) ∧
    (∀ snap ∈ s.history, ∀ slot ∈ snap.buffer,
      slot.occupied = true ↔ slot.item.isSome = true) := by
  obtain ⟨hm, hs, hz, ha, hh⟩ := engineInv_reachable h
  constructor
  · intro slot hmem
    rw [hs slot hmem]
  · intro snap hsnap slot hmem
    rw [(hh snap hsnap).2.1 slot hmem]

/-- C9 witness at the occupied slot of the two-step run on `{1,1,1,1.0}`. -/
theorem claim_C9_witness :
    (BufferSlot.mk 0 true
      (some { id := "item-1-P1", producedBy := "P1", timestamp := 42 })).occupied = true ↔
    (BufferSlot.mk 0 true
      (some { id := "item-1-P1", producedBy := "P1", timestamp := 42 })).item.isSome = true :=
  (claim_C9 (runCommands (createInitialState cfg111)
      [(SimulationAction.stepForward, 41), (SimulationAction.stepForward, 42)])
    ⟨cfg111, [(SimulationAction.stepForward, 41), (SimulationAction.stepForward, 42)], rfl⟩).1
    _ (by decide)

/-- C10: in every reachable state and every stored snapshot, every
process's `totalWaitTime` is 0 and `averageWaitTime` is 0, even though
the latter is recomputed as the mean of `totalWaitTime` after each
successful step. -/
theorem claim_C10 (s : SimulationState) (h : ReachableState s) :
    (∀ p ∈ s.processes, p.totalWaitTime = 0) ∧
    s.statistics.averageWaitTime = 0 ∧
    (∀ snap ∈ s.history,
      (∀ p ∈ snap.processes, p.totalWaitTime = 0) ∧
      snap.statistics.averageWaitTime = 0) := by
  obtain ⟨hm, hs, hz, ha, hh⟩ := engineInv_reachable h
  exact ⟨hz, ha, fun snap hsnap =>
    ⟨(hh snap hsnap).2.2.1, (hh snap hsnap).2.2.2⟩⟩

/-- C10 witness: the average wait time after one step on the default
configuration is 0. -/
theorem claim_C10_witness :
    (runCommands (createInitialState DEFAULT_CONFIG)
      [(SimulationAction.stepForward, 0)]).statistics.averageWaitTime = 0 :=
  (claim_C10 (runCommands (createInitialState DEFAULT_CONFIG)
      [(SimulationAction.stepForward, 0)])
    ⟨DEFAULT_CONFIG, [(SimulationAction.stepForward, 0)], rfl⟩).2.1

end PCSim
